import Mathlib

/-! # tll scheme codec primitives

A shallow embedding of `src/tll/scheme/util.h` (`read_size`, `write_size`,
`read_pointer`, `write_pointer`, `alloc_pointer`, `write_pointer_size`) together
with the parts of `src/tll/scheme.h` they use.

C integers are natural numbers or integers with explicit reductions modulo
`2^w` at every narrowing store or conversion.  Memory is a byte-indexed map,
so that every typed access of the source has a value in the model.
-/

namespace tll.scheme

/-! ## Data model (`tll/scheme.h`) -/

/-- Field types, `tll_scheme_field_type_t`, under the short names
`tll_scheme_field_t` exports (`Field::Int8`, ...).  `UInt64` is used by
`util.h` (`case Field::UInt64`) although the enumeration in `scheme.h` does not
list it; it is included here as one more integer type. -/
inductive tll_scheme_field_type_t where
  | Int8 | Int16 | Int32 | Int64
  | UInt8 | UInt16 | UInt32 | UInt64
  | Double | Decimal128 | Bytes | Message | Array | Pointer | Union
  deriving DecidableEq, Repr

/-- Enumerator `TLL_SCHEME_OFFSET_PTR_DEFAULT = 0`. -/
abbrev TLL_SCHEME_OFFSET_PTR_DEFAULT : Nat := 0
/-- Enumerator `TLL_SCHEME_OFFSET_PTR_LEGACY_SHORT` (second enumerator, value 1). -/
abbrev TLL_SCHEME_OFFSET_PTR_LEGACY_SHORT : Nat := 1
/-- Enumerator `TLL_SCHEME_OFFSET_PTR_LEGACY_LONG` (third enumerator, value 2). -/
abbrev TLL_SCHEME_OFFSET_PTR_LEGACY_LONG : Nat := 2

/-- The element descriptor a pointer field refers to through `type_ptr`; the
codec reads only its `size`. -/
structure tll_scheme_field_ref_t where
  size : Nat
  deriving DecidableEq, Repr

/-- The members of `tll_scheme_field_t` the codec reads: `type`, `size`, and for
pointer fields `type_ptr` and `offset_ptr_version`.  The version is kept as
the raw enumeration value, so values outside the three enumerators exist. -/
structure tll_scheme_field_t where
  type : tll_scheme_field_type_t
  size : Nat
  type_ptr : tll_scheme_field_ref_t
  offset_ptr_version : Nat
  deriving DecidableEq, Repr

/-- Value `ERANGE` of `errno.h` (34 on Linux), the out-of-range code. -/
abbrev ERANGE : Int := 34

/-! ## Bytes and views -/

/-- Little-endian value of the `k` bytes of `m` starting at address `a` (the wire
layout is little-endian and packed, section 6 of the spec). -/
def loadLE (m : Nat → Nat) (a : Nat) : Nat → Nat
  | 0 => 0
  | k + 1 => m a % 256 + 256 * loadLE m (a + 1) k

/-- Memory `m` after storing the low `k` bytes of `v`, little-endian, at
address `a`. -/
def storeLE (m : Nat → Nat) (a k v : Nat) : Nat → Nat :=
  fun i => if a ≤ i ∧ i < a + k then v / 256 ^ (i - a) % 256 else m i

/-- Value of a `w`-bit pattern `v` read through a signed type (two's
complement). -/
def toSigned (w v : Nat) : Int :=
  if v % 2 ^ w < 2 ^ (w - 1) then (v % 2 ^ w : Nat) else (v % 2 ^ w : Nat) - 2 ^ w

/-- Modelled from the spec: the growable byte storage behind a view
(`tll/util/memoryview.h` is not among the sources).  `bytes` gives the byte at
each index, `size` is the current length. -/
structure Buffer where
  bytes : Nat → Nat
  size : Nat

/-- Modelled from the spec: the view abstraction of section 4.7, a window on a
buffer that begins at `start`; its length is what remains of the buffer. -/
structure View where
  buf : Buffer
  start : Nat

namespace View

/-- Modelled from the spec: `size()`, the current length of the view. -/
def size (v : View) : Nat := v.buf.size - v.start

/-- Modelled from the spec: `view(delta)`, the sub-view starting at
`start + delta`. -/
def view (v : View) (delta : Nat) : View := { v with start := v.start + delta }

/-- Modelled from the spec: `resize(n)`, which grows the underlying buffer so
that the length of the view is at least `n`. -/
def resize (v : View) (n : Nat) : View :=
  if n ≤ v.size then v else { v with buf := { v.buf with size := v.start + n } }

/-- Modelled from the spec: read access through `dataT<T>()` to a member of `k`
bytes at byte offset `off` of the object at the start of the view
(little-endian, packed, section 6). -/
def load (v : View) (off k : Nat) : Nat := loadLE v.buf.bytes (v.start + off) k

/-- Modelled from the spec: write access through `dataT<T>()` to a member of
`k` bytes at byte offset `off`; the value is narrowed to `k` bytes. -/
def store (v : View) (off k val : Nat) : View :=
  { v with buf := { v.buf with bytes := storeLE v.buf.bytes (v.start + off) k val } }

/-- The byte of the view at offset `i`. -/
def byte (v : View) (i : Nat) : Nat := v.buf.bytes (v.start + i) % 256

end View

/-- A member of a packed structure: its byte offset in the structure and its
width in bytes. -/
structure Member where
  off : Nat
  width : Nat
  deriving DecidableEq, Repr

/-- The only member of a scalar of `bytes` bytes, as `dataT<uint32_t>()` and the like
access it. -/
def scalar (bytes : Nat) : Member := { off := 0, width := bytes }

/-- Modelled from the spec: member `offset` of `tll_scheme_offset_ptr_t`, the DEFAULT
header of `tll/scheme/types.h` (not among the sources): 32 bits, bytes 0..3
(section 4.3 and scenario S2). -/
def tll_scheme_offset_ptr_t.offset : Member := { off := 0, width := 4 }

/-- Modelled from the spec: member `size` of `tll_scheme_offset_ptr_t`: 24 bits,
bytes 4..6. -/
def tll_scheme_offset_ptr_t.size : Member := { off := 4, width := 3 }

/-- Modelled from the spec: member `entity` of `tll_scheme_offset_ptr_t`: 8 bits,
byte 7. -/
def tll_scheme_offset_ptr_t.entity : Member := { off := 7, width := 1 }

/-- Modelled from the spec: member `offset` of `tll_scheme_offset_ptr_legacy_long_t`
(`tll/scheme/types.h`, not among the sources): 32 bits, bytes 0..3. -/
def tll_scheme_offset_ptr_legacy_long_t.offset : Member := { off := 0, width := 4 }

/-- Modelled from the spec: member `size` of `tll_scheme_offset_ptr_legacy_long_t`:
16 bits, bytes 4..5. -/
def tll_scheme_offset_ptr_legacy_long_t.size : Member := { off := 4, width := 2 }

/-- Modelled from the spec: member `entity` of `tll_scheme_offset_ptr_legacy_long_t`:
16 bits, bytes 6..7. -/
def tll_scheme_offset_ptr_legacy_long_t.entity : Member := { off := 6, width := 2 }

/-- Modelled from the spec: member `offset` of `tll_scheme_offset_ptr_legacy_short_t`
(`tll/scheme/types.h`, not among the sources): 16 bits, bytes 0..1. -/
def tll_scheme_offset_ptr_legacy_short_t.offset : Member := { off := 0, width := 2 }

/-- Modelled from the spec: member `size` of `tll_scheme_offset_ptr_legacy_short_t`:
16 bits, bytes 2..3. -/
def tll_scheme_offset_ptr_legacy_short_t.size : Member := { off := 2, width := 2 }

/-- Modelled from the spec: read through `dataT<T>()` of member `m` of the object at
the start of the view. -/
def View.get (v : View) (m : Member) : Nat := v.load m.off m.width

/-- Modelled from the spec: assignment through `dataT<T>()` of `val` to member `m` of
the object at the start of the view, narrowed to the width of the member. -/
def View.set (v : View) (m : Member) (val : Nat) : View := v.store m.off m.width val

/-! ## Size reader (`read_size`, `write_size`) -/

/-- Function `read_size`: the count stored in an integer field, read through the
type of the field and returned as `long long` (a `uint64_t` is converted to it);
`-1` for every other type. -/
def read_size (field : tll_scheme_field_t) (data : View) : Int :=
  match field.type with
  | .Int8 => toSigned 8 (data.get (scalar 1))
  | .Int16 => toSigned 16 (data.get (scalar 2))
  | .Int32 => toSigned 32 (data.get (scalar 4))
  | .Int64 => toSigned 64 (data.get (scalar 8))
  | .UInt8 => (data.get (scalar 1) : Nat)
  | .UInt16 => (data.get (scalar 2) : Nat)
  | .UInt32 => (data.get (scalar 4) : Nat)
  | .UInt64 => toSigned 64 (data.get (scalar 8))
  | _ => -1

/-- Function `write_size`: stores `size` (a `size_t`) through the type of the
field, narrowed to its width; returns the code and the view afterwards. -/
def write_size (field : tll_scheme_field_t) (data : View) (size : Nat) : Int × View :=
  match field.type with
  | .Int8 => (0, data.set (scalar 1) size)
  | .Int16 => (0, data.set (scalar 2) size)
  | .Int32 => (0, data.set (scalar 4) size)
  | .Int64 => (0, data.set (scalar 8) size)
  | .UInt8 => (0, data.set (scalar 1) size)
  | .UInt16 => (0, data.set (scalar 2) size)
  | .UInt32 => (0, data.set (scalar 4) size)
  | .UInt64 => (0, data.set (scalar 8) size)
  | _ => (0, data)

/-! ## Offset pointers -/

/-- Structure `generic_offset_ptr_t`: three `unsigned` members. -/
structure generic_offset_ptr_t where
  offset : Nat
  size : Nat
  entity : Nat
  deriving DecidableEq, Repr

/-- The members of a `generic_offset_ptr_t` are C `unsigned` values. -/
def generic_offset_ptr_t.wf (p : generic_offset_ptr_t) : Prop :=
  p.offset < 2 ^ 32 ∧ p.size < 2 ^ 32 ∧ p.entity < 2 ^ 32

instance (p : generic_offset_ptr_t) : Decidable p.wf := by
  unfold generic_offset_ptr_t.wf; infer_instance

/-- Function `read_pointer`: the header is read through the structure of the
version of the field; absent for a version outside the three enumerators. -/
def read_pointer (field : tll_scheme_field_t) (data : View) : Option generic_offset_ptr_t :=
  if field.offset_ptr_version = TLL_SCHEME_OFFSET_PTR_DEFAULT then
    let size := data.get tll_scheme_offset_ptr_t.size
    let offset := data.get tll_scheme_offset_ptr_t.offset
    if data.get tll_scheme_offset_ptr_t.entity = 0xff then
      some { size := size
             entity := (data.view offset).get (scalar 4)
             offset := (offset + 4) % 2 ^ 32 }
    else
      some { size := size, offset := offset, entity := data.get tll_scheme_offset_ptr_t.entity }
  else if field.offset_ptr_version = TLL_SCHEME_OFFSET_PTR_LEGACY_LONG then
    some { size := data.get tll_scheme_offset_ptr_legacy_long_t.size
           offset := data.get tll_scheme_offset_ptr_legacy_long_t.offset
           entity := data.get tll_scheme_offset_ptr_legacy_long_t.entity }
  else if field.offset_ptr_version = TLL_SCHEME_OFFSET_PTR_LEGACY_SHORT then
    some { size := data.get tll_scheme_offset_ptr_legacy_short_t.size
           offset := data.get tll_scheme_offset_ptr_legacy_short_t.offset
           entity := field.type_ptr.size % 2 ^ 32 }
  else
    none

/-- Function `write_pointer`: returns the code and the view afterwards.  A
version outside the three enumerators falls through the `switch`. -/
def write_pointer (field : tll_scheme_field_t) (data : View) (ptr : generic_offset_ptr_t) :
    Int × View :=
  if field.offset_ptr_version = TLL_SCHEME_OFFSET_PTR_DEFAULT then
    let p := data.set tll_scheme_offset_ptr_t.size ptr.size
    let p := p.set tll_scheme_offset_ptr_t.offset ptr.offset
    let p := p.set tll_scheme_offset_ptr_t.entity (min ptr.entity 0xff)
    (0, p)
  else if field.offset_ptr_version = TLL_SCHEME_OFFSET_PTR_LEGACY_LONG then
    if ptr.size > 2 ^ 16 - 1 then (ERANGE, data)
    else
      let p := data.set tll_scheme_offset_ptr_legacy_long_t.size ptr.size
      let p := p.set tll_scheme_offset_ptr_legacy_long_t.offset ptr.offset
      let p := p.set tll_scheme_offset_ptr_legacy_long_t.entity ptr.entity
      (0, p)
  else if field.offset_ptr_version = TLL_SCHEME_OFFSET_PTR_LEGACY_SHORT then
    if ptr.size > 2 ^ 16 - 1 then (ERANGE, data)
    else if ptr.offset > 2 ^ 16 - 1 then (ERANGE, data)
    else
      let p := data.set tll_scheme_offset_ptr_legacy_short_t.size ptr.size
      let p := p.set tll_scheme_offset_ptr_legacy_short_t.offset ptr.offset
      (0, p)
  else
    (0, data)

/-- Function `alloc_pointer`: returns the code, the view afterwards and the
final value of the in-out argument `ptr`.  `ptr.offset = data.size()` narrows a
`size_t` to `unsigned`, `ptr.entity * ptr.size` is an `unsigned` product, and
`ptr.offset += 4` is `unsigned` arithmetic. -/
def alloc_pointer (field : tll_scheme_field_t) (data : View) (ptr : generic_offset_ptr_t) :
    Int × View × generic_offset_ptr_t :=
  let ptr := { ptr with offset := data.size % 2 ^ 32 }
  let (r, data) := write_pointer field data ptr
  if r ≠ 0 then (r, data, ptr)
  else
    let items := data.view data.size
    if ptr.entity ≥ 0xff ∧ field.offset_ptr_version = TLL_SCHEME_OFFSET_PTR_DEFAULT then
      let items := items.resize (4 + ptr.entity * ptr.size % 2 ^ 32)
      let items := items.set (scalar 4) ptr.entity
      (0, { data with buf := items.buf }, { ptr with offset := (ptr.offset + 4) % 2 ^ 32 })
    else
      let items := items.resize (ptr.entity * ptr.size % 2 ^ 32)
      (0, { data with buf := items.buf }, ptr)

/-- Function `write_pointer_size`: stores `size` (a `size_t`) in the size member of
the header. -/
def write_pointer_size (field : tll_scheme_field_t) (data : View) (size : Nat) : View :=
  if field.offset_ptr_version = TLL_SCHEME_OFFSET_PTR_DEFAULT then
    data.set tll_scheme_offset_ptr_t.size size
  else if field.offset_ptr_version = TLL_SCHEME_OFFSET_PTR_LEGACY_LONG then
    data.set tll_scheme_offset_ptr_legacy_long_t.size size
  else if field.offset_ptr_version = TLL_SCHEME_OFFSET_PTR_LEGACY_SHORT then
    data.set tll_scheme_offset_ptr_legacy_short_t.size size
  else data

/-! ## Sample values -/

/-- A buffer of `n` zero bytes. -/
def zeroBuffer (n : Nat) : Buffer := { bytes := fun _ => 0, size := n }

/-- A view on the whole of a buffer of `n` zero bytes. -/
def zeroView (n : Nat) : View := { buf := zeroBuffer n, start := 0 }

/-- A pointer field of the given version whose elements are `esize` bytes. -/
def pointerField (version esize : Nat) : tll_scheme_field_t :=
  { type := .Pointer, size := 8, type_ptr := { size := esize }, offset_ptr_version := version }

/-- A scalar field of the given type. -/
def scalarField (t : tll_scheme_field_type_t) : tll_scheme_field_t :=
  { type := t, size := 0, type_ptr := { size := 0 }, offset_ptr_version := 0 }

/-! ## Integer types of the size reader -/

/-- Bit width of an integer field type, none for the other types. -/
def intWidth : tll_scheme_field_type_t → Option Nat
  | .Int8 => some 8 | .Int16 => some 16 | .Int32 => some 32 | .Int64 => some 64
  | .UInt8 => some 8 | .UInt16 => some 16 | .UInt32 => some 32 | .UInt64 => some 64
  | _ => none

/-- Largest value of an integer field type, none for the other types. -/
def intMax : tll_scheme_field_type_t → Option Nat
  | .Int8 => some (2 ^ 7 - 1) | .Int16 => some (2 ^ 15 - 1)
  | .Int32 => some (2 ^ 31 - 1) | .Int64 => some (2 ^ 63 - 1)
  | .UInt8 => some (2 ^ 8 - 1) | .UInt16 => some (2 ^ 16 - 1)
  | .UInt32 => some (2 ^ 32 - 1) | .UInt64 => some (2 ^ 64 - 1)
  | _ => none

/-- The types `read_size` returns without a sign: the result is the stored pattern
itself. -/
def readsUnsigned : tll_scheme_field_type_t → Bool
  | .UInt8 | .UInt16 | .UInt32 => true
  | _ => false

/-- A 64-byte view whose DEFAULT header has offset 8, size 2, entity byte 0xFF, and
whose payload begins with the escaped entity 300. -/
def escapedView : View :=
  { buf := { bytes := fun i => if i = 0 then 8 else if i = 4 then 2 else if i = 7 then 0xff
                        else if i = 8 then 44 else if i = 9 then 1 else 0
             size := 64 }
    start := 0 }

/-- A 64-byte view whose DEFAULT header has offset 4, size 0 and entity byte 0xFF:
the escaped entity would lie on bytes 4..7 of the header itself. -/
def overlapView : View :=
  { buf := { bytes := fun i => if i = 0 then 4 else if i = 7 then 0xff else 0, size := 64 }
    start := 0 }

/-! ## Options and message lookup (`tll/scheme.h`) -/

/-- Structure `tll_scheme_option_t`: `name` and `value` (which may be null); the
`next` links are the order of the list that holds the options. -/
structure tll_scheme_option_t where
  name : String
  value : Option String
  deriving DecidableEq, Repr

/-- Function `getter_api<tll_scheme_option_t *>::get`: walks the options and stops at
the first whose name equals `key`; it returns the value of that option when the
value is not null, and absent otherwise. -/
def getter_api.get : List tll_scheme_option_t → String → Option String
  | [], _ => none
  | o :: next, key =>
    if key = o.name then
      match o.value with
      | some v => some v
      | none => none
    else getter_api.get next key

/-- Function `getter_api<tll_scheme_option_t *>::has`, that is `!!get(o, key)`. -/
def getter_api.has (o : List tll_scheme_option_t) (key : String) : Bool :=
  (getter_api.get o key).isSome

/-- The members of `tll_scheme_message_t` the lookups read, `msgid` and `name`
(which may be null), and its `size`. -/
structure tll_scheme_message_t where
  msgid : Int
  name : Option String
  size : Nat
  deriving DecidableEq, Repr

/-- Structure `tll_scheme_t`: the options and the messages in declaration order. -/
structure tll_scheme_t where
  options : List tll_scheme_option_t
  messages : List tll_scheme_message_t
  deriving DecidableEq, Repr

/-- The loop of `tll_scheme_t::lookup(int id)`. -/
def tll_scheme_t.lookup_loop : List tll_scheme_message_t → Int → Option tll_scheme_message_t
  | [], _ => none
  | m :: next, id => if m.msgid = id then some m else tll_scheme_t.lookup_loop next id

/-- Function `tll_scheme_t::lookup(int id)`. -/
def tll_scheme_t.lookup (s : tll_scheme_t) (id : Int) : Option tll_scheme_message_t :=
  tll_scheme_t.lookup_loop s.messages id

/-- The loop of `tll_scheme_t::lookup(int id) const`. -/
def tll_scheme_t.lookup_const_loop :
    List tll_scheme_message_t → Int → Option tll_scheme_message_t
  | [], _ => none
  | m :: next, id => if m.msgid = id then some m else tll_scheme_t.lookup_const_loop next id

/-- Function `tll_scheme_t::lookup(int id) const`. -/
def tll_scheme_t.lookup_const (s : tll_scheme_t) (id : Int) : Option tll_scheme_message_t :=
  tll_scheme_t.lookup_const_loop s.messages id

/-- The loop of `tll_scheme_t::lookup(std::string_view id)`: a message matches when
its name is not null and equals `id`. -/
def tll_scheme_t.lookup_name_loop :
    List tll_scheme_message_t → String → Option tll_scheme_message_t
  | [], _ => none
  | m :: next, id =>
    if m.name.isSome ∧ m.name = some id then some m
    else tll_scheme_t.lookup_name_loop next id

/-- Function `tll_scheme_t::lookup(std::string_view id)`. -/
def tll_scheme_t.lookup_name (s : tll_scheme_t) (id : String) : Option tll_scheme_message_t :=
  tll_scheme_t.lookup_name_loop s.messages id

/-- The loop of `tll_scheme_t::lookup(std::string_view id) const`. -/
def tll_scheme_t.lookup_name_const_loop :
    List tll_scheme_message_t → String → Option tll_scheme_message_t
  | [], _ => none
  | m :: next, id =>
    if m.name.isSome ∧ m.name = some id then some m
    else tll_scheme_t.lookup_name_const_loop next id

/-- Function `tll_scheme_t::lookup(std::string_view id) const`. -/
def tll_scheme_t.lookup_name_const (s : tll_scheme_t) (id : String) :
    Option tll_scheme_message_t :=
  tll_scheme_t.lookup_name_const_loop s.messages id

/-- Modelled from the spec: size in bytes of the pointer header of a version (8
for DEFAULT, 8 for LEGACY_LONG, 4 for LEGACY_SHORT; section 4.3), 0 for a value
outside the three enumerators. -/
def header_size (version : Nat) : Nat :=
  if version = TLL_SCHEME_OFFSET_PTR_DEFAULT then 8
  else if version = TLL_SCHEME_OFFSET_PTR_LEGACY_LONG then 8
  else if version = TLL_SCHEME_OFFSET_PTR_LEGACY_SHORT then 4
  else 0

/-- Sample options: `a` without a value, then `k` twice with different values. -/
def sampleOptions : List tll_scheme_option_t :=
  [{ name := "a", value := none }, { name := "k", value := some "x" },
   { name := "k", value := some "y" }]

/-- Sample schema: an unnamed message with id 7, `Tick` with id 0, `Quote` with id 7
and a second `Tick` with id 9. -/
def sampleScheme : tll_scheme_t :=
  { options := sampleOptions
    messages := [{ msgid := 7, name := none, size := 4 }, { msgid := 0, name := some "Tick", size := 6 },
                 { msgid := 7, name := some "Quote", size := 8 },
                 { msgid := 9, name := some "Tick", size := 10 }] }

/-! ## Byte-level lemmas -/

theorem loadLE_congr (m m' : Nat → Nat) (a k : Nat)
    (h : ∀ i, a ≤ i → i < a + k → m i = m' i) : loadLE m a k = loadLE m' a k := by
  induction k generalizing a with
  | zero => rfl
  | succ k ih =>
    simp only [loadLE]
    rw [h a (le_refl a) (by omega), ih (a + 1) (fun i h1 h2 => h i (by omega) (by omega))]

theorem loadLE_lt (m : Nat → Nat) (a k : Nat) : loadLE m a k < 256 ^ k := by
  induction k generalizing a with
  | zero => simp [loadLE]
  | succ k ih =>
    simp only [loadLE]
    have h1 := ih (a + 1)
    have h2 : m a % 256 < 256 := Nat.mod_lt _ (by norm_num)
    rw [pow_succ]
    omega

theorem storeLE_outside (m : Nat → Nat) (a k v i : Nat) (h : i < a ∨ a + k ≤ i) :
    storeLE m a k v i = m i := by
  unfold storeLE
  rw [if_neg]
  omega

theorem storeLE_inside (m : Nat → Nat) (a k v i : Nat) (h1 : a ≤ i) (h2 : i < a + k) :
    storeLE m a k v i = v / 256 ^ (i - a) % 256 := by
  unfold storeLE
  rw [if_pos ⟨h1, h2⟩]

theorem loadLE_storeLE_same (m : Nat → Nat) (a k v : Nat) :
    loadLE (storeLE m a k v) a k = v % 256 ^ k := by
  induction k generalizing a v with
  | zero => simp [loadLE, Nat.mod_one]
  | succ k ih =>
    simp only [loadLE]
    have h0 : storeLE m a (k + 1) v a = v % 256 := by
      rw [storeLE_inside m a (k + 1) v a (le_refl a) (by omega)]
      simp
    have h1 : loadLE (storeLE m a (k + 1) v) (a + 1) k
        = loadLE (storeLE m (a + 1) k (v / 256)) (a + 1) k := by
      apply loadLE_congr
      intro i hi1 hi2
      rw [storeLE_inside m a (k + 1) v i (by omega) (by omega),
        storeLE_inside m (a + 1) k (v / 256) i hi1 hi2]
      have e : i - a = (i - (a + 1)) + 1 := by omega
      rw [e, pow_succ, Nat.mul_comm, Nat.div_div_eq_div_mul]
    rw [h0, h1, ih, Nat.mod_mod, pow_succ, Nat.mul_comm (256 ^ k) 256, Nat.mod_mul]

theorem loadLE_storeLE_disjoint (m : Nat → Nat) (a k v a' k' : Nat)
    (h : a' + k' ≤ a ∨ a + k ≤ a') :
    loadLE (storeLE m a k v) a' k' = loadLE m a' k' := by
  apply loadLE_congr
  intro i h1 h2
  apply storeLE_outside
  omega

theorem loadLE_one (m : Nat → Nat) (a : Nat) : loadLE m a 1 = m a % 256 := by
  simp [loadLE]

/-! ## View-level lemmas -/

namespace View

@[simp] theorem store_start (v : View) (off k val : Nat) : (v.store off k val).start = v.start :=
  rfl

@[simp] theorem store_buf_size (v : View) (off k val : Nat) :
    (v.store off k val).buf.size = v.buf.size := rfl

@[simp] theorem store_size (v : View) (off k val : Nat) : (v.store off k val).size = v.size :=
  rfl

theorem load_lt (v : View) (off k : Nat) : v.load off k < 256 ^ k := loadLE_lt _ _ _

theorem load_store_same (v : View) (off k val : Nat) :
    (v.store off k val).load off k = val % 256 ^ k := loadLE_storeLE_same _ _ _ _

theorem load_store_disjoint (v : View) (off k val off' k' : Nat)
    (h : off' + k' ≤ off ∨ off + k ≤ off') :
    (v.store off k val).load off' k' = v.load off' k' := by
  show loadLE (storeLE v.buf.bytes (v.start + off) k val) (v.start + off') k'
    = loadLE v.buf.bytes (v.start + off') k'
  apply loadLE_storeLE_disjoint
  omega

theorem bytes_store_outside (v : View) (off k val i : Nat)
    (h : i < v.start + off ∨ v.start + off + k ≤ i) :
    (v.store off k val).buf.bytes i = v.buf.bytes i :=
  storeLE_outside _ _ _ _ _ h

theorem byte_eq_load (v : View) (i : Nat) : v.byte i = v.load i 1 := by
  simp [byte, load, loadLE]

end View

/-! ## The three branches of the codec -/

theorem write_pointer_default (field : tll_scheme_field_t) (data : View)
    (ptr : generic_offset_ptr_t)
    (hv : field.offset_ptr_version = TLL_SCHEME_OFFSET_PTR_DEFAULT) :
    write_pointer field data ptr =
      (0, ((data.store 4 3 ptr.size).store 0 4 ptr.offset).store 7 1 (min ptr.entity 0xff)) := by
  simp [write_pointer, hv, View.set, tll_scheme_offset_ptr_t.size,
    tll_scheme_offset_ptr_t.offset, tll_scheme_offset_ptr_t.entity,
    tll_scheme_offset_ptr_legacy_long_t.size, tll_scheme_offset_ptr_legacy_long_t.offset,
    tll_scheme_offset_ptr_legacy_long_t.entity, tll_scheme_offset_ptr_legacy_short_t.size,
    tll_scheme_offset_ptr_legacy_short_t.offset]

theorem write_pointer_legacy_long (field : tll_scheme_field_t) (data : View)
    (ptr : generic_offset_ptr_t)
    (hv : field.offset_ptr_version = TLL_SCHEME_OFFSET_PTR_LEGACY_LONG) :
    write_pointer field data ptr =
      if ptr.size > 2 ^ 16 - 1 then (ERANGE, data)
      else (0, ((data.store 4 2 ptr.size).store 0 4 ptr.offset).store 6 2 ptr.entity) := by
  simp [write_pointer, hv, View.set, tll_scheme_offset_ptr_t.size,
    tll_scheme_offset_ptr_t.offset, tll_scheme_offset_ptr_t.entity,
    tll_scheme_offset_ptr_legacy_long_t.size, tll_scheme_offset_ptr_legacy_long_t.offset,
    tll_scheme_offset_ptr_legacy_long_t.entity, tll_scheme_offset_ptr_legacy_short_t.size,
    tll_scheme_offset_ptr_legacy_short_t.offset]

theorem write_pointer_legacy_short (field : tll_scheme_field_t) (data : View)
    (ptr : generic_offset_ptr_t)
    (hv : field.offset_ptr_version = TLL_SCHEME_OFFSET_PTR_LEGACY_SHORT) :
    write_pointer field data ptr =
      if ptr.size > 2 ^ 16 - 1 then (ERANGE, data)
      else if ptr.offset > 2 ^ 16 - 1 then (ERANGE, data)
      else (0, (data.store 2 2 ptr.size).store 0 2 ptr.offset) := by
  simp [write_pointer, hv, View.set, tll_scheme_offset_ptr_t.size,
    tll_scheme_offset_ptr_t.offset, tll_scheme_offset_ptr_t.entity,
    tll_scheme_offset_ptr_legacy_long_t.size, tll_scheme_offset_ptr_legacy_long_t.offset,
    tll_scheme_offset_ptr_legacy_long_t.entity, tll_scheme_offset_ptr_legacy_short_t.size,
    tll_scheme_offset_ptr_legacy_short_t.offset]

theorem write_pointer_unknown (field : tll_scheme_field_t) (data : View)
    (ptr : generic_offset_ptr_t)
    (h0 : field.offset_ptr_version ≠ TLL_SCHEME_OFFSET_PTR_DEFAULT)
    (h1 : field.offset_ptr_version ≠ TLL_SCHEME_OFFSET_PTR_LEGACY_SHORT)
    (h2 : field.offset_ptr_version ≠ TLL_SCHEME_OFFSET_PTR_LEGACY_LONG) :
    write_pointer field data ptr = (0, data) := by
  simp [write_pointer, h0, h1, h2]

theorem read_pointer_default (field : tll_scheme_field_t) (data : View)
    (hv : field.offset_ptr_version = TLL_SCHEME_OFFSET_PTR_DEFAULT) :
    read_pointer field data =
      if data.load 7 1 = 0xff then
        some { size := data.load 4 3
               entity := (data.view (data.load 0 4)).load 0 4
               offset := (data.load 0 4 + 4) % 2 ^ 32 }
      else
        some { size := data.load 4 3, offset := data.load 0 4, entity := data.load 7 1 } := by
  simp [read_pointer, hv, View.get, scalar, tll_scheme_offset_ptr_t.size,
    tll_scheme_offset_ptr_t.offset, tll_scheme_offset_ptr_t.entity,
    tll_scheme_offset_ptr_legacy_long_t.size, tll_scheme_offset_ptr_legacy_long_t.offset,
    tll_scheme_offset_ptr_legacy_long_t.entity, tll_scheme_offset_ptr_legacy_short_t.size,
    tll_scheme_offset_ptr_legacy_short_t.offset]

theorem read_pointer_legacy_long (field : tll_scheme_field_t) (data : View)
    (hv : field.offset_ptr_version = TLL_SCHEME_OFFSET_PTR_LEGACY_LONG) :
    read_pointer field data =
      some { size := data.load 4 2, offset := data.load 0 4, entity := data.load 6 2 } := by
  simp [read_pointer, hv, View.get, scalar, tll_scheme_offset_ptr_t.size,
    tll_scheme_offset_ptr_t.offset, tll_scheme_offset_ptr_t.entity,
    tll_scheme_offset_ptr_legacy_long_t.size, tll_scheme_offset_ptr_legacy_long_t.offset,
    tll_scheme_offset_ptr_legacy_long_t.entity, tll_scheme_offset_ptr_legacy_short_t.size,
    tll_scheme_offset_ptr_legacy_short_t.offset]

theorem read_pointer_legacy_short (field : tll_scheme_field_t) (data : View)
    (hv : field.offset_ptr_version = TLL_SCHEME_OFFSET_PTR_LEGACY_SHORT) :
    read_pointer field data =
      some { size := data.load 2 2, offset := data.load 0 2
             entity := field.type_ptr.size % 2 ^ 32 } := by
  simp [read_pointer, hv, View.get, scalar, tll_scheme_offset_ptr_t.size,
    tll_scheme_offset_ptr_t.offset, tll_scheme_offset_ptr_t.entity,
    tll_scheme_offset_ptr_legacy_long_t.size, tll_scheme_offset_ptr_legacy_long_t.offset,
    tll_scheme_offset_ptr_legacy_long_t.entity, tll_scheme_offset_ptr_legacy_short_t.size,
    tll_scheme_offset_ptr_legacy_short_t.offset]

namespace View

@[simp] theorem resize_start (v : View) (n : Nat) : (v.resize n).start = v.start := by
  unfold resize; split <;> rfl

@[simp] theorem resize_bytes (v : View) (n : Nat) : (v.resize n).buf.bytes = v.buf.bytes := by
  unfold resize; split <;> rfl

theorem resize_size (v : View) (n : Nat) : (v.resize n).size = max v.size n := by
  unfold resize; split
  · omega
  · simp only [size] at *; omega

end View

theorem alloc_pointer_default_escape (field : tll_scheme_field_t) (data : View)
    (ptr : generic_offset_ptr_t)
    (hv : field.offset_ptr_version = TLL_SCHEME_OFFSET_PTR_DEFAULT) (he : 255 ≤ ptr.entity) :
    (alloc_pointer field data ptr).1 = 0 ∧
    (alloc_pointer field data ptr).2.2 =
      { ptr with offset := (data.size % 2 ^ 32 + 4) % 2 ^ 32 } ∧
    (alloc_pointer field data ptr).2.1.start = data.start ∧
    (alloc_pointer field data ptr).2.1.buf.bytes =
      storeLE (storeLE (storeLE (storeLE data.buf.bytes (data.start + 4) 3 ptr.size)
        (data.start + 0) 4 (data.size % 2 ^ 32)) (data.start + 7) 1 255)
        (data.start + data.size + 0) 4 ptr.entity := by
  have hmin : min ptr.entity 255 = 255 := by omega
  simp [alloc_pointer, write_pointer_default field data _ hv, hv, he, hmin, View.store, View.view,
    View.size, View.set, scalar]

theorem View.load_view_store_disjoint (v : View) (off k val d off' k' : Nat)
    (h : d + off' + k' ≤ off ∨ off + k ≤ d + off') :
    ((v.store off k val).view d).load off' k' = (v.view d).load off' k' := by
  show loadLE (storeLE v.buf.bytes (v.start + off) k val) (v.start + d + off') k'
    = loadLE v.buf.bytes (v.start + d + off') k'
  apply loadLE_storeLE_disjoint
  omega

theorem write_pointer_size_default (field : tll_scheme_field_t) (data : View) (size : Nat)
    (hv : field.offset_ptr_version = TLL_SCHEME_OFFSET_PTR_DEFAULT) :
    write_pointer_size field data size = data.store 4 3 size := by
  simp [write_pointer_size, hv, View.set, tll_scheme_offset_ptr_t.size,
    tll_scheme_offset_ptr_legacy_long_t.size, tll_scheme_offset_ptr_legacy_short_t.size]

theorem write_pointer_size_legacy_long (field : tll_scheme_field_t) (data : View) (size : Nat)
    (hv : field.offset_ptr_version = TLL_SCHEME_OFFSET_PTR_LEGACY_LONG) :
    write_pointer_size field data size = data.store 4 2 size := by
  simp [write_pointer_size, hv, View.set, tll_scheme_offset_ptr_t.size,
    tll_scheme_offset_ptr_legacy_long_t.size, tll_scheme_offset_ptr_legacy_short_t.size]

theorem write_pointer_size_legacy_short (field : tll_scheme_field_t) (data : View) (size : Nat)
    (hv : field.offset_ptr_version = TLL_SCHEME_OFFSET_PTR_LEGACY_SHORT) :
    write_pointer_size field data size = data.store 2 2 size := by
  simp [write_pointer_size, hv, View.set, tll_scheme_offset_ptr_t.size,
    tll_scheme_offset_ptr_legacy_long_t.size, tll_scheme_offset_ptr_legacy_short_t.size]

theorem toSigned_mod (w v m : Nat) (hm : m = 2 ^ w) : toSigned w (v % m) = toSigned w v := by
  subst hm
  simp [toSigned, Nat.mod_mod]

theorem read_size_of_write_size (field : tll_scheme_field_t) (data : View) (n w : Nat)
    (hw : intWidth field.type = some w) :
    read_size field (write_size field data n).2 =
      if readsUnsigned field.type then ((n % 2 ^ w : Nat) : Int) else toSigned w n := by
  obtain ⟨t, s, tp, v⟩ := field
  cases t <;> simp [intWidth] at hw <;> subst hw <;>
    simp [read_size, write_size, readsUnsigned, View.get, View.set, scalar,
      View.load_store_same] <;>
    exact toSigned_mod _ _ _ (by norm_num)

/-! ## Frame of `write_pointer` and shape of `alloc_pointer` -/

theorem write_pointer_start (field : tll_scheme_field_t) (data : View)
    (ptr : generic_offset_ptr_t) : (write_pointer field data ptr).2.start = data.start := by
  unfold write_pointer
  split_ifs <;> rfl

theorem write_pointer_buf_size (field : tll_scheme_field_t) (data : View)
    (ptr : generic_offset_ptr_t) : (write_pointer field data ptr).2.buf.size = data.buf.size := by
  unfold write_pointer
  split_ifs <;> rfl

theorem write_pointer_bytes_outside (field : tll_scheme_field_t) (data : View)
    (ptr : generic_offset_ptr_t) (i : Nat)
    (h : i < data.start ∨ data.start + header_size field.offset_ptr_version ≤ i) :
    (write_pointer field data ptr).2.buf.bytes i = data.buf.bytes i := by
  by_cases h0 : field.offset_ptr_version = TLL_SCHEME_OFFSET_PTR_DEFAULT
  · rw [write_pointer_default field data ptr h0]
    have hh : header_size field.offset_ptr_version = 8 := by rw [h0]; rfl
    rw [hh] at h
    simp only [View.store]
    rw [storeLE_outside _ _ _ _ _ (by omega), storeLE_outside _ _ _ _ _ (by omega),
      storeLE_outside _ _ _ _ _ (by omega)]
  · by_cases h2 : field.offset_ptr_version = TLL_SCHEME_OFFSET_PTR_LEGACY_LONG
    · rw [write_pointer_legacy_long field data ptr h2]
      have hh : header_size field.offset_ptr_version = 8 := by rw [h2]; rfl
      rw [hh] at h
      split_ifs
      · rfl
      · simp only [View.store]
        rw [storeLE_outside _ _ _ _ _ (by omega), storeLE_outside _ _ _ _ _ (by omega),
          storeLE_outside _ _ _ _ _ (by omega)]
    · by_cases h1 : field.offset_ptr_version = TLL_SCHEME_OFFSET_PTR_LEGACY_SHORT
      · rw [write_pointer_legacy_short field data ptr h1]
        have hh : header_size field.offset_ptr_version = 4 := by rw [h1]; rfl
        rw [hh] at h
        split_ifs
        · rfl
        · rfl
        · simp only [View.store]
          rw [storeLE_outside _ _ _ _ _ (by omega), storeLE_outside _ _ _ _ _ (by omega)]
      · rw [write_pointer_unknown field data ptr h0 h1 h2]

theorem write_pointer_snd_of_ne_zero (field : tll_scheme_field_t) (data : View)
    (ptr : generic_offset_ptr_t) (h : (write_pointer field data ptr).1 ≠ 0) :
    (write_pointer field data ptr).2 = data := by
  unfold write_pointer at h ⊢
  split_ifs at h ⊢ <;> first | rfl | exact absurd rfl h

theorem write_pointer_fst_ne_zero_iff (field : tll_scheme_field_t) (data : View)
    (ptr : generic_offset_ptr_t) :
    (write_pointer field data ptr).1 ≠ 0 ↔
      ((field.offset_ptr_version = TLL_SCHEME_OFFSET_PTR_LEGACY_LONG ∧ ptr.size > 2 ^ 16 - 1) ∨
        (field.offset_ptr_version = TLL_SCHEME_OFFSET_PTR_LEGACY_SHORT ∧
          (ptr.size > 2 ^ 16 - 1 ∨ ptr.offset > 2 ^ 16 - 1))) := by
  by_cases h0 : field.offset_ptr_version = TLL_SCHEME_OFFSET_PTR_DEFAULT
  · rw [write_pointer_default field data ptr h0]
    simp [h0]
  · by_cases h2 : field.offset_ptr_version = TLL_SCHEME_OFFSET_PTR_LEGACY_LONG
    · rw [write_pointer_legacy_long field data ptr h2]
      split_ifs with h <;> simp [h2] <;> omega
    · by_cases h1 : field.offset_ptr_version = TLL_SCHEME_OFFSET_PTR_LEGACY_SHORT
      · rw [write_pointer_legacy_short field data ptr h1]
        split_ifs with h h' <;> simp [h1] <;> omega
      · rw [write_pointer_unknown field data ptr h0 h1 h2]
        simp [h1, h2]

theorem alloc_pointer_fst (field : tll_scheme_field_t) (data : View)
    (ptr : generic_offset_ptr_t) :
    (alloc_pointer field data ptr).1 =
      (write_pointer field data { ptr with offset := data.size % 2 ^ 32 }).1 := by
  unfold alloc_pointer
  simp only []
  split_ifs with h1 h2
  · rfl
  · simp only [ne_eq, not_not] at h1
    exact h1.symm
  · simp only [ne_eq, not_not] at h1
    exact h1.symm

theorem alloc_pointer_of_fail (field : tll_scheme_field_t) (data : View)
    (ptr : generic_offset_ptr_t)
    (h : (write_pointer field data { ptr with offset := data.size % 2 ^ 32 }).1 ≠ 0) :
    alloc_pointer field data ptr =
      ((write_pointer field data { ptr with offset := data.size % 2 ^ 32 }).1,
        (write_pointer field data { ptr with offset := data.size % 2 ^ 32 }).2,
        { ptr with offset := data.size % 2 ^ 32 }) := by
  unfold alloc_pointer
  simp only []
  rw [if_pos h]

/-! ## Option and message lookup lemmas -/

theorem getter_get_cons_of_eq (o : tll_scheme_option_t) (next : List tll_scheme_option_t)
    (key : String) (h : o.name = key) : getter_api.get (o :: next) key = o.value := by
  simp only [getter_api.get, h, if_true]
  cases o.value <;> rfl

theorem getter_get_cons_of_ne (o : tll_scheme_option_t) (next : List tll_scheme_option_t)
    (key : String) (h : o.name ≠ key) :
    getter_api.get (o :: next) key = getter_api.get next key := by
  simp only [getter_api.get]
  rw [if_neg (fun e => h e.symm)]

theorem getter_get_append_of_ne (pre l : List tll_scheme_option_t) (key : String)
    (h : ∀ p ∈ pre, p.name ≠ key) :
    getter_api.get (pre ++ l) key = getter_api.get l key := by
  induction pre with
  | nil => rfl
  | cons p pre ih =>
    rw [List.cons_append, getter_get_cons_of_ne p _ key (h p (List.mem_cons_self _ _))]
    exact ih (fun q hq => h q (List.mem_cons_of_mem _ hq))

theorem getter_get_eq_find (l : List tll_scheme_option_t) (key : String) :
    getter_api.get l key =
      (l.find? (fun o => decide (key = o.name))).bind (fun o => o.value) := by
  induction l with
  | nil => rfl
  | cons o next ih =>
    by_cases h : o.name = key
    · rw [getter_get_cons_of_eq o next key h]
      simp [List.find?, h]
    · rw [getter_get_cons_of_ne o next key h, ih]
      have h' : ¬ key = o.name := fun e => h e.symm
      simp [List.find?, h']

theorem lookup_loop_eq_find (ms : List tll_scheme_message_t) (id : Int) :
    tll_scheme_t.lookup_loop ms id = ms.find? (fun m => decide (m.msgid = id)) := by
  induction ms with
  | nil => rfl
  | cons m next ih =>
    by_cases h : m.msgid = id
    · simp [tll_scheme_t.lookup_loop, List.find?, h]
    · simp [tll_scheme_t.lookup_loop, List.find?, h, ih]

theorem lookup_const_loop_eq (ms : List tll_scheme_message_t) (id : Int) :
    tll_scheme_t.lookup_const_loop ms id = tll_scheme_t.lookup_loop ms id := by
  induction ms with
  | nil => rfl
  | cons m next ih => simp [tll_scheme_t.lookup_const_loop, tll_scheme_t.lookup_loop, ih]

theorem lookup_name_loop_eq_find (ms : List tll_scheme_message_t) (id : String) :
    tll_scheme_t.lookup_name_loop ms id = ms.find? (fun m => decide (m.name = some id)) := by
  induction ms with
  | nil => rfl
  | cons m next ih =>
    by_cases h : m.name = some id
    · simp [tll_scheme_t.lookup_name_loop, List.find?, h]
    · simp [tll_scheme_t.lookup_name_loop, List.find?, h, ih]

theorem lookup_name_const_loop_eq (ms : List tll_scheme_message_t) (id : String) :
    tll_scheme_t.lookup_name_const_loop ms id = tll_scheme_t.lookup_name_loop ms id := by
  induction ms with
  | nil => rfl
  | cons m next ih =>
    simp [tll_scheme_t.lookup_name_const_loop, tll_scheme_t.lookup_name_loop, ih]

theorem find_append_of_first {α : Type} (p : α → Bool) (pre : List α) (x : α) (rest : List α)
    (hpre : ∀ y ∈ pre, p y = false) (hx : p x = true) :
    (pre ++ x :: rest).find? p = some x := by
  induction pre with
  | nil => simp [List.find?, hx]
  | cons y pre ih =>
    have hy := hpre y (List.mem_cons_self _ _)
    simp only [List.cons_append, List.find?, hy]
    exact ih (fun z hz => hpre z (List.mem_cons_of_mem _ hz))

theorem find_eq_none_iff_forall {α : Type} (p : α → Bool) (l : List α) :
    l.find? p = none ↔ ∀ y ∈ l, p y = false := by
  induction l with
  | nil => simp
  | cons y l ih =>
    cases hy : p y
    · simp [List.find?, hy, ih]
    · simp [List.find?, hy]

theorem find_some_holds {α : Type} (p : α → Bool) (l : List α) (x : α)
    (h : l.find? p = some x) : p x = true ∧ x ∈ l := by
  induction l with
  | nil => simp at h
  | cons y l ih =>
    cases hy : p y
    · simp only [List.find?, hy] at h
      exact ⟨(ih h).1, List.mem_cons_of_mem _ (ih h).2⟩
    · simp only [List.find?, hy, Option.some.injEq] at h
      subst h
      exact ⟨hy, List.mem_cons_self _ _⟩

theorem find_map_of_comm {α : Type} (p : α → Bool) (g : α → α) (l : List α)
    (hg : ∀ y, p (g y) = p y) : (l.map g).find? p = (l.find? p).map g := by
  induction l with
  | nil => rfl
  | cons y l ih =>
    cases hy : p y
    · simp [List.find?, hg, hy, ih]
    · simp [List.find?, hg, hy]

theorem alloc_pointer_of_ok (field : tll_scheme_field_t) (data : View)
    (ptr : generic_offset_ptr_t)
    (h : (write_pointer field data { ptr with offset := data.size % 2 ^ 32 }).1 = 0) :
    (alloc_pointer field data ptr).2.2.offset =
      (if 255 ≤ ptr.entity ∧ field.offset_ptr_version = TLL_SCHEME_OFFSET_PTR_DEFAULT
        then (data.size % 2 ^ 32 + 4) % 2 ^ 32 else data.size % 2 ^ 32) ∧
    (alloc_pointer field data ptr).2.1.size =
      data.size +
        (if 255 ≤ ptr.entity ∧ field.offset_ptr_version = TLL_SCHEME_OFFSET_PTR_DEFAULT
          then 4 + ptr.entity * ptr.size % 2 ^ 32 else ptr.entity * ptr.size % 2 ^ 32) := by
  have hs := write_pointer_start field data { ptr with offset := data.size % 2 ^ 32 }
  have hb := write_pointer_buf_size field data { ptr with offset := data.size % 2 ^ 32 }
  unfold alloc_pointer
  simp only []
  rw [if_neg (by simpa using h)]
  generalize (write_pointer field data { ptr with offset := data.size % 2 ^ 32 }).2 = w at hs hb ⊢
  by_cases hc : 255 ≤ ptr.entity ∧ field.offset_ptr_version = TLL_SCHEME_OFFSET_PTR_DEFAULT
  · rw [if_pos hc, if_pos hc, if_pos (by simpa using hc)]
    refine ⟨rfl, ?_⟩
    simp only [View.size, View.set, View.store, View.view, View.resize]
    split_ifs <;> simp only [] <;> omega
  · rw [if_neg hc, if_neg hc, if_neg (by simpa using hc)]
    refine ⟨rfl, ?_⟩
    simp only [View.size, View.view, View.resize]
    split_ifs <;> simp only [] <;> omega

theorem alloc_pointer_reserves_when_product_fits (field : tll_scheme_field_t) (data : View)
    (ptr : generic_offset_ptr_t) (h0 : (alloc_pointer field data ptr).1 = 0)
    (hprod : ptr.entity * ptr.size < 2 ^ 32) (hL : data.size + 4 < 2 ^ 32) :
    (alloc_pointer field data ptr).2.2.offset =
      (if 255 ≤ ptr.entity ∧ field.offset_ptr_version = TLL_SCHEME_OFFSET_PTR_DEFAULT
        then data.size + 4 else data.size) ∧
    (alloc_pointer field data ptr).2.2.offset + ptr.size * ptr.entity
      ≤ (alloc_pointer field data ptr).2.1.size := by
  rw [alloc_pointer_fst] at h0
  obtain ⟨h1, h2⟩ := alloc_pointer_of_ok field data ptr h0
  have e1 : data.size % 2 ^ 32 = data.size := Nat.mod_eq_of_lt (by omega)
  have e2 : (data.size + 4) % 2 ^ 32 = data.size + 4 := Nat.mod_eq_of_lt hL
  have e3 : ptr.entity * ptr.size % 2 ^ 32 = ptr.entity * ptr.size := Nat.mod_eq_of_lt hprod
  rw [e1, e2] at h1
  rw [e3] at h2
  rw [h1, h2, Nat.mul_comm ptr.size ptr.entity]
  refine ⟨rfl, ?_⟩
  split_ifs <;> omega

/-! ## Claims -/

/-- C1: header round trip.  For a pointer field of version DEFAULT, LEGACY_LONG or
LEGACY_SHORT and a pointer (offset, size, entity) of C `unsigned` members that fits
the header of that version, `write_pointer` returns 0 and `read_pointer` on the
resulting buffer returns exactly the pointer written. -/
theorem write_pointer_read_pointer_roundtrip (field : tll_scheme_field_t) (data : View)
    (ptr : generic_offset_ptr_t) (hwf : ptr.wf)
    (hfit :
      (field.offset_ptr_version = TLL_SCHEME_OFFSET_PTR_DEFAULT ∧
        ptr.size ≤ 2 ^ 24 - 1 ∧ ptr.entity ≤ 254) ∨
      (field.offset_ptr_version = TLL_SCHEME_OFFSET_PTR_LEGACY_LONG ∧
        ptr.size ≤ 2 ^ 16 - 1 ∧ ptr.entity ≤ 2 ^ 16 - 1) ∨
      (field.offset_ptr_version = TLL_SCHEME_OFFSET_PTR_LEGACY_SHORT ∧
        ptr.offset ≤ 2 ^ 16 - 1 ∧ ptr.size ≤ 2 ^ 16 - 1 ∧ ptr.entity = field.type_ptr.size)) :
    (write_pointer field data ptr).1 = 0 ∧
      read_pointer field (write_pointer field data ptr).2 = some ptr := by
  obtain ⟨ho, hs, he⟩ := hwf
  obtain ⟨ptro, ptrs, ptre⟩ := ptr
  simp only at ho hs he hfit
  rcases hfit with ⟨hv, h1, h2⟩ | ⟨hv, h1, h2⟩ | ⟨hv, h0, h1, h2⟩
  · have hmin : min ptre 255 = ptre := by omega
    have hne : ¬ ptre = 255 := by omega
    rw [write_pointer_default field data _ hv, read_pointer_default field _ hv]
    simp (disch := omega) [View.load_store_same, View.load_store_disjoint, hmin, hne,
      Nat.mod_eq_of_lt]
  · have hs2 : ¬ ptrs > 2 ^ 16 - 1 := by omega
    rw [write_pointer_legacy_long field data _ hv, read_pointer_legacy_long field _ hv]
    simp only [if_neg hs2]
    simp (disch := omega) [View.load_store_same, View.load_store_disjoint, Nat.mod_eq_of_lt]
  · have hs2 : ¬ ptrs > 2 ^ 16 - 1 := by omega
    have ho2 : ¬ ptro > 2 ^ 16 - 1 := by omega
    subst h2
    rw [write_pointer_legacy_short field data _ hv, read_pointer_legacy_short field _ hv]
    simp only [if_neg hs2, if_neg ho2]
    simp (disch := omega) [View.load_store_same, View.load_store_disjoint, Nat.mod_eq_of_lt]

/-- Witness for C1: the S2 pointer (0x1000, 10, 1) on a DEFAULT field. -/
theorem write_pointer_read_pointer_roundtrip_witness :
    ((⟨0x1000, 10, 1⟩ : generic_offset_ptr_t).wf ∧
      (pointerField TLL_SCHEME_OFFSET_PTR_DEFAULT 1).offset_ptr_version
        = TLL_SCHEME_OFFSET_PTR_DEFAULT ∧ (10 : Nat) ≤ 2 ^ 24 - 1 ∧ (1 : Nat) ≤ 254) ∧
    (write_pointer (pointerField TLL_SCHEME_OFFSET_PTR_DEFAULT 1) (zeroView 64) ⟨0x1000, 10, 1⟩).1 = 0 ∧
      read_pointer (pointerField TLL_SCHEME_OFFSET_PTR_DEFAULT 1)
        (write_pointer (pointerField TLL_SCHEME_OFFSET_PTR_DEFAULT 1) (zeroView 64)
          ⟨0x1000, 10, 1⟩).2 = some ⟨0x1000, 10, 1⟩ :=
  ⟨by decide,
    write_pointer_read_pointer_roundtrip (pointerField TLL_SCHEME_OFFSET_PTR_DEFAULT 1)
      (zeroView 64) ⟨0x1000, 10, 1⟩ (by decide) (Or.inl (by decide))⟩

/-- C2 (amended): escape round trip on a DEFAULT field.  When the view holds the
8-byte header, its length `L` satisfies `L + 4 < 2^32`, the entity is at least 255
(and a C `unsigned`) and the size at most `2^24 - 1`, `alloc_pointer` returns 0 and
`read_pointer` then returns the requested entity, the requested size and the offset
`L + 4`, which is also the value left in `ptr.offset`; the header entity byte is
0xFF and the 32-bit entity is stored at the old tail `L`. -/
theorem alloc_pointer_escape_roundtrip (field : tll_scheme_field_t) (data : View)
    (ptr : generic_offset_ptr_t)
    (hv : field.offset_ptr_version = TLL_SCHEME_OFFSET_PTR_DEFAULT)
    (hlen : 8 ≤ data.size) (htail : data.size + 4 < 2 ^ 32)
    (he : 255 ≤ ptr.entity) (he32 : ptr.entity < 2 ^ 32) (hs : ptr.size ≤ 2 ^ 24 - 1) :
    (alloc_pointer field data ptr).1 = 0 ∧
    read_pointer field (alloc_pointer field data ptr).2.1 =
      some { offset := data.size + 4, size := ptr.size, entity := ptr.entity } ∧
    (alloc_pointer field data ptr).2.2.offset = data.size + 4 ∧
    (alloc_pointer field data ptr).2.1.byte 7 = 0xff ∧
    (alloc_pointer field data ptr).2.1.load data.size 4 = ptr.entity := by
  obtain ⟨h1, h2, h3, h4⟩ := alloc_pointer_default_escape field data ptr hv he
  have hL : data.size % 2 ^ 32 = data.size := Nat.mod_eq_of_lt (by omega)
  have hL4 : (data.size + 4) % 2 ^ 32 = data.size + 4 := Nat.mod_eq_of_lt htail
  refine ⟨h1, ?_, ?_, ?_, ?_⟩
  · rw [read_pointer_default field _ hv]
    simp only [View.load, View.view, h3, h4]
    simp (disch := omega) [loadLE_storeLE_same, loadLE_storeLE_disjoint, Nat.mod_eq_of_lt, hL, hL4]
  · rw [h2]; simp only [hL, hL4]
  · simp only [View.byte, h3, h4, ← loadLE_one]
    simp (disch := omega) [loadLE_storeLE_same, loadLE_storeLE_disjoint]
  · simp only [View.load, h3, h4]
    simp (disch := omega) [loadLE_storeLE_same, loadLE_storeLE_disjoint, Nat.mod_eq_of_lt]

/-- Witness for C2: the S3 pointer with 300-byte elements on a 64-byte view. -/
theorem alloc_pointer_escape_roundtrip_witness :
    (8 ≤ (zeroView 64).size ∧ (zeroView 64).size + 4 < 2 ^ 32) ∧
    (alloc_pointer (pointerField TLL_SCHEME_OFFSET_PTR_DEFAULT 300) (zeroView 64) ⟨0, 10, 300⟩).1 = 0 ∧
    read_pointer (pointerField TLL_SCHEME_OFFSET_PTR_DEFAULT 300)
      (alloc_pointer (pointerField TLL_SCHEME_OFFSET_PTR_DEFAULT 300) (zeroView 64) ⟨0, 10, 300⟩).2.1 =
      some { offset := (zeroView 64).size + 4, size := 10, entity := 300 } ∧
    (alloc_pointer (pointerField TLL_SCHEME_OFFSET_PTR_DEFAULT 300) (zeroView 64)
      ⟨0, 10, 300⟩).2.2.offset = (zeroView 64).size + 4 ∧
    (alloc_pointer (pointerField TLL_SCHEME_OFFSET_PTR_DEFAULT 300) (zeroView 64)
      ⟨0, 10, 300⟩).2.1.byte 7 = 0xff ∧
    (alloc_pointer (pointerField TLL_SCHEME_OFFSET_PTR_DEFAULT 300) (zeroView 64)
      ⟨0, 10, 300⟩).2.1.load (zeroView 64).size 4 = 300 :=
  ⟨by decide,
    alloc_pointer_escape_roundtrip (pointerField TLL_SCHEME_OFFSET_PTR_DEFAULT 300) (zeroView 64)
      ⟨0, 10, 300⟩ rfl (by decide) (by decide) (by decide) (by decide) (by decide)⟩

/-- C2 (as stated) fails when the tail does not fit 32 bits.  On a view of
`2^32 - 4` bytes every condition of the claim holds and `alloc_pointer` returns 0,
but `read_pointer` returns offset 0 (also the value left in `ptr.offset`), not the
old tail plus 4.  On a view of `2^32 + 8` bytes `read_pointer` returns entity 0
and offset 12 for the requested entity 300. -/
theorem alloc_pointer_escape_long_view_counterexample :
    (8 ≤ (zeroView (2 ^ 32 - 4)).size ∧ (255 : Nat) ≤ 300 ∧ (300 : Nat) ≤ 2 ^ 32 - 1 ∧
      (1 : Nat) ≤ 2 ^ 24 - 1) ∧
    (alloc_pointer (pointerField TLL_SCHEME_OFFSET_PTR_DEFAULT 300) (zeroView (2 ^ 32 - 4))
      ⟨0, 1, 300⟩).1 = 0 ∧
    read_pointer (pointerField TLL_SCHEME_OFFSET_PTR_DEFAULT 300)
      (alloc_pointer (pointerField TLL_SCHEME_OFFSET_PTR_DEFAULT 300) (zeroView (2 ^ 32 - 4))
        ⟨0, 1, 300⟩).2.1 = some { offset := 0, size := 1, entity := 300 } ∧
    (alloc_pointer (pointerField TLL_SCHEME_OFFSET_PTR_DEFAULT 300) (zeroView (2 ^ 32 - 4))
      ⟨0, 1, 300⟩).2.2.offset = 0 ∧
    (zeroView (2 ^ 32 - 4)).size + 4 = 2 ^ 32 ∧
    (alloc_pointer (pointerField TLL_SCHEME_OFFSET_PTR_DEFAULT 300) (zeroView (2 ^ 32 + 8))
      ⟨0, 1, 300⟩).1 = 0 ∧
    read_pointer (pointerField TLL_SCHEME_OFFSET_PTR_DEFAULT 300)
      (alloc_pointer (pointerField TLL_SCHEME_OFFSET_PTR_DEFAULT 300) (zeroView (2 ^ 32 + 8))
        ⟨0, 1, 300⟩).2.1 = some { offset := 12, size := 1, entity := 0 } := by
  decide

/-- C3: `write_pointer` fails exactly on the documented range violations.  On a
LEGACY_LONG field it returns `ERANGE` iff `ptr.size > 2^16 - 1` and 0 otherwise; on
a LEGACY_SHORT field it returns `ERANGE` iff `ptr.size > 2^16 - 1` or
`ptr.offset > 2^16 - 1` and 0 otherwise; on a DEFAULT field it returns 0 for every
pointer. -/
theorem write_pointer_fails_iff (field : tll_scheme_field_t) (data : View)
    (ptr : generic_offset_ptr_t) :
    (((write_pointer { field with offset_ptr_version := TLL_SCHEME_OFFSET_PTR_LEGACY_LONG }
          data ptr).1 = ERANGE ↔ ptr.size > 2 ^ 16 - 1) ∧
      ((write_pointer { field with offset_ptr_version := TLL_SCHEME_OFFSET_PTR_LEGACY_LONG }
          data ptr).1 = 0 ↔ ¬ ptr.size > 2 ^ 16 - 1)) ∧
    (((write_pointer { field with offset_ptr_version := TLL_SCHEME_OFFSET_PTR_LEGACY_SHORT }
          data ptr).1 = ERANGE ↔ (ptr.size > 2 ^ 16 - 1 ∨ ptr.offset > 2 ^ 16 - 1)) ∧
      ((write_pointer { field with offset_ptr_version := TLL_SCHEME_OFFSET_PTR_LEGACY_SHORT }
          data ptr).1 = 0 ↔ ¬ (ptr.size > 2 ^ 16 - 1 ∨ ptr.offset > 2 ^ 16 - 1))) ∧
    (write_pointer { field with offset_ptr_version := TLL_SCHEME_OFFSET_PTR_DEFAULT }
      data ptr).1 = 0 := by
  refine ⟨?_, ?_, ?_⟩
  · rw [write_pointer_legacy_long _ data ptr rfl]
    split_ifs with h <;> simp <;> omega
  · rw [write_pointer_legacy_short _ data ptr rfl]
    split_ifs with h h' <;> simp <;> omega
  · rw [write_pointer_default _ data ptr rfl]

/-- C4: failure atomicity of `write_pointer`.  Whenever it returns a non-zero code,
the view it returns is the one it was given: the buffer has the same length and
every byte is the same as before the call. -/
theorem write_pointer_failure_atomic (field : tll_scheme_field_t) (data : View)
    (ptr : generic_offset_ptr_t) (h : (write_pointer field data ptr).1 ≠ 0) :
    (write_pointer field data ptr).2 = data ∧
    (write_pointer field data ptr).2.buf.size = data.buf.size ∧
    ∀ i, (write_pointer field data ptr).2.buf.bytes i = data.buf.bytes i := by
  have key : (write_pointer field data ptr).2 = data := by
    unfold write_pointer at h ⊢
    split_ifs at h ⊢ <;> first | rfl | exact absurd rfl h
  rw [key]
  exact ⟨rfl, rfl, fun _ => rfl⟩

/-- Witness for C4: scenario S4, a LEGACY_SHORT field and offset 0x10000. -/
theorem write_pointer_failure_atomic_witness :
    ((write_pointer (pointerField TLL_SCHEME_OFFSET_PTR_LEGACY_SHORT 1) (zeroView 64)
        ⟨0x10000, 1, 1⟩).1 ≠ 0 ∧
      (write_pointer (pointerField TLL_SCHEME_OFFSET_PTR_LEGACY_SHORT 1) (zeroView 64)
        ⟨0x10000, 1, 1⟩).1 = ERANGE) ∧
    ((write_pointer (pointerField TLL_SCHEME_OFFSET_PTR_LEGACY_SHORT 1) (zeroView 64)
        ⟨0x10000, 1, 1⟩).2 = zeroView 64 ∧
      (write_pointer (pointerField TLL_SCHEME_OFFSET_PTR_LEGACY_SHORT 1) (zeroView 64)
        ⟨0x10000, 1, 1⟩).2.buf.size = (zeroView 64).buf.size ∧
      ∀ i, (write_pointer (pointerField TLL_SCHEME_OFFSET_PTR_LEGACY_SHORT 1) (zeroView 64)
        ⟨0x10000, 1, 1⟩).2.buf.bytes i = (zeroView 64).buf.bytes i) :=
  ⟨by decide,
    write_pointer_failure_atomic (pointerField TLL_SCHEME_OFFSET_PTR_LEGACY_SHORT 1) (zeroView 64)
      ⟨0x10000, 1, 1⟩ (by decide)⟩

/-- C5: the code at the failing inputs.  On a DEFAULT field, size `2^24` does not
fit the 24-bit member, yet `write_pointer` returns 0 and the header reads back
size 0; on a LEGACY_LONG field, entity `2^16` does not fit the 16-bit member, yet
`write_pointer` returns 0 and the header reads back entity 0. -/
theorem write_pointer_overflow_unreported :
    ((write_pointer (pointerField TLL_SCHEME_OFFSET_PTR_DEFAULT 1) (zeroView 64)
        ⟨8, 2 ^ 24, 1⟩).1 = 0 ∧
      read_pointer (pointerField TLL_SCHEME_OFFSET_PTR_DEFAULT 1)
        (write_pointer (pointerField TLL_SCHEME_OFFSET_PTR_DEFAULT 1) (zeroView 64)
          ⟨8, 2 ^ 24, 1⟩).2 = some { offset := 8, size := 0, entity := 1 }) ∧
    ((write_pointer (pointerField TLL_SCHEME_OFFSET_PTR_LEGACY_LONG 65536) (zeroView 64)
        ⟨8, 1, 2 ^ 16⟩).1 = 0 ∧
      read_pointer (pointerField TLL_SCHEME_OFFSET_PTR_LEGACY_LONG 65536)
        (write_pointer (pointerField TLL_SCHEME_OFFSET_PTR_LEGACY_LONG 65536) (zeroView 64)
          ⟨8, 1, 2 ^ 16⟩).2 = some { offset := 8, size := 1, entity := 0 }) := by
  decide

/-- C6 (amended): `write_pointer_size` changes only the size.  For every version
and every header in which, when the version is DEFAULT and the entity byte is 0xFF,
the four bytes of the escaped entity at the header's offset do not overlap the size
bytes 4..6 (the offset is 0 or at least 7), `read_pointer` after
`write_pointer_size(field, view, n)` returns the same offset and entity as before
and size `n` reduced to the size width (24 bits for DEFAULT, 16 bits otherwise);
the buffer keeps its length and no byte outside the first 8 bytes of the view
changes. -/
theorem write_pointer_size_frame (field : tll_scheme_field_t) (data : View) (n : Nat)
    (hpay : field.offset_ptr_version = TLL_SCHEME_OFFSET_PTR_DEFAULT → data.load 7 1 = 0xff →
      (data.load 0 4 = 0 ∨ 7 ≤ data.load 0 4)) :
    read_pointer field (write_pointer_size field data n) =
      (read_pointer field data).map (fun r =>
        { r with size := n % 2 ^ (if field.offset_ptr_version = TLL_SCHEME_OFFSET_PTR_DEFAULT
                                    then 24 else 16) }) ∧
    (write_pointer_size field data n).start = data.start ∧
    (write_pointer_size field data n).buf.size = data.buf.size ∧
    ∀ i, i < data.start ∨ data.start + 8 ≤ i →
      (write_pointer_size field data n).buf.bytes i = data.buf.bytes i := by
  by_cases h0 : field.offset_ptr_version = TLL_SCHEME_OFFSET_PTR_DEFAULT
  · rw [write_pointer_size_default field data n h0, read_pointer_default field _ h0,
      read_pointer_default field _ h0]
    have e7 : (data.store 4 3 n).load 7 1 = data.load 7 1 :=
      View.load_store_disjoint _ _ _ _ _ _ (by omega)
    have e0 : (data.store 4 3 n).load 0 4 = data.load 0 4 :=
      View.load_store_disjoint _ _ _ _ _ _ (by omega)
    have e4 : (data.store 4 3 n).load 4 3 = n % 2 ^ 24 := by
      rw [View.load_store_same]; norm_num
    rw [e7, e0, e4]
    refine ⟨?_, rfl, rfl, fun i hi => View.bytes_store_outside _ _ _ _ _ (by omega)⟩
    by_cases hff : data.load 7 1 = 0xff
    · have hp := hpay h0 hff
      have ee : ((data.store 4 3 n).view (data.load 0 4)).load 0 4
          = (data.view (data.load 0 4)).load 0 4 :=
        View.load_view_store_disjoint _ _ _ _ _ _ _ (by omega)
      simp [hff, ee, h0]
    · simp [hff, h0]
  · by_cases h2 : field.offset_ptr_version = TLL_SCHEME_OFFSET_PTR_LEGACY_LONG
    · rw [write_pointer_size_legacy_long field data n h2, read_pointer_legacy_long field _ h2,
        read_pointer_legacy_long field _ h2]
      refine ⟨?_, rfl, rfl, fun i hi => View.bytes_store_outside _ _ _ _ _ (by omega)⟩
      simp (disch := omega) [View.load_store_same, View.load_store_disjoint, h0]
    · by_cases h1 : field.offset_ptr_version = TLL_SCHEME_OFFSET_PTR_LEGACY_SHORT
      · rw [write_pointer_size_legacy_short field data n h1,
          read_pointer_legacy_short field _ h1, read_pointer_legacy_short field _ h1]
        refine ⟨?_, rfl, rfl, fun i hi => View.bytes_store_outside _ _ _ _ _ (by omega)⟩
        simp (disch := omega) [View.load_store_same, View.load_store_disjoint, h0]
      · simp [read_pointer, write_pointer_size, h0, h1, h2]

/-- Witness for C6: growing the size of an escaped DEFAULT header from 2 to 5. -/
theorem write_pointer_size_frame_witness :
    (escapedView.load 7 1 = 0xff ∧ 7 ≤ escapedView.load 0 4) ∧
    read_pointer (pointerField TLL_SCHEME_OFFSET_PTR_DEFAULT 300) escapedView =
      some { offset := 12, size := 2, entity := 300 } ∧
    read_pointer (pointerField TLL_SCHEME_OFFSET_PTR_DEFAULT 300)
      (write_pointer_size (pointerField TLL_SCHEME_OFFSET_PTR_DEFAULT 300) escapedView 5) =
      some { offset := 12, size := 5, entity := 300 } ∧
    (read_pointer (pointerField TLL_SCHEME_OFFSET_PTR_DEFAULT 300)
        (write_pointer_size (pointerField TLL_SCHEME_OFFSET_PTR_DEFAULT 300) escapedView 5) =
      (read_pointer (pointerField TLL_SCHEME_OFFSET_PTR_DEFAULT 300) escapedView).map (fun r =>
        { r with size := 5 % 2 ^ (if (pointerField TLL_SCHEME_OFFSET_PTR_DEFAULT 300).offset_ptr_version
                                      = TLL_SCHEME_OFFSET_PTR_DEFAULT then 24 else 16) }) ∧
      (write_pointer_size (pointerField TLL_SCHEME_OFFSET_PTR_DEFAULT 300) escapedView 5).start
        = escapedView.start ∧
      (write_pointer_size (pointerField TLL_SCHEME_OFFSET_PTR_DEFAULT 300) escapedView 5).buf.size
        = escapedView.buf.size ∧
      ∀ i, i < escapedView.start ∨ escapedView.start + 8 ≤ i →
        (write_pointer_size (pointerField TLL_SCHEME_OFFSET_PTR_DEFAULT 300) escapedView 5).buf.bytes i
          = escapedView.buf.bytes i) :=
  ⟨by decide, by decide, by decide,
    write_pointer_size_frame (pointerField TLL_SCHEME_OFFSET_PTR_DEFAULT 300) escapedView 5
      (fun _ _ => Or.inr (by decide))⟩

/-- C6 (as stated) fails on a header whose escaped entity overlaps its size bytes:
with offset 4 and entity byte 0xFF, `read_pointer` returns entity `0xFF000000`
before and `0xFF000001` after `write_pointer_size(field, view, 1)`. -/
theorem write_pointer_size_overlap_counterexample :
    read_pointer (pointerField TLL_SCHEME_OFFSET_PTR_DEFAULT 300) overlapView =
      some { offset := 8, size := 0, entity := 0xFF000000 } ∧
    read_pointer (pointerField TLL_SCHEME_OFFSET_PTR_DEFAULT 300)
      (write_pointer_size (pointerField TLL_SCHEME_OFFSET_PTR_DEFAULT 300) overlapView 1) =
      some { offset := 8, size := 1, entity := 0xFF000001 } := by
  decide

/-- C7 (amended): size round trip through the field's type.  For a field of integer
type of width `w` and every count `n`, `read_size` after `write_size(field, view, n)`
returns `n mod 2^w` when the type is UINT8, UINT16 or UINT32; for the signed
types, and for UINT64 (read into a `long long`), it returns `n mod 2^w` when that
is below `2^(w-1)` and `n mod 2^w - 2^w` otherwise. -/
theorem read_size_write_size_typed (field : tll_scheme_field_t) (data : View) (n w : Nat)
    (hw : intWidth field.type = some w) :
    read_size field (write_size field data n).2 =
      if readsUnsigned field.type = true ∨ n % 2 ^ w < 2 ^ (w - 1) then ((n % 2 ^ w : Nat) : Int)
      else ((n % 2 ^ w : Nat) : Int) - 2 ^ w := by
  rw [read_size_of_write_size field data n w hw]
  by_cases hu : readsUnsigned field.type = true
  · simp [hu]
  · by_cases hn : n % 2 ^ w < 2 ^ (w - 1) <;> simp [hu, hn, toSigned]

/-- Witness for C7: an INT8 field storing 200 reads back `200 - 256`. -/
theorem read_size_write_size_typed_witness :
    intWidth (scalarField .Int8).type = some 8 ∧
    read_size (scalarField .Int8) (write_size (scalarField .Int8) (zeroView 8) 200).2 =
      if readsUnsigned (scalarField .Int8).type = true ∨ 200 % 2 ^ 8 < 2 ^ (8 - 1)
      then ((200 % 2 ^ 8 : Nat) : Int) else ((200 % 2 ^ 8 : Nat) : Int) - 2 ^ 8 :=
  ⟨rfl, read_size_write_size_typed (scalarField .Int8) (zeroView 8) 200 8 rfl⟩

/-- C7 (as stated) fails on signed types: an INT8 field storing 200 reads back
-56, not `200 mod 2^8 = 200`; and a UINT64 field storing `2^63` reads back
`-2^63`. -/
theorem read_size_write_size_signed_counterexample :
    intWidth (scalarField .Int8).type = some 8 ∧
    read_size (scalarField .Int8) (write_size (scalarField .Int8) (zeroView 8) 200).2 = -56 ∧
    ((200 % 2 ^ 8 : Nat) : Int) = 200 ∧
    read_size (scalarField .UInt64) (write_size (scalarField .UInt64) (zeroView 8) (2 ^ 63)).2
      = -9223372036854775808 := by
  decide

/-- C8 (amended): in-range counts round trip exactly.  For a field of integer type
and every `n` from 0 to the largest value of that type, and at most `2^63 - 1`
(which matters for UINT64 only), `write_size` followed by `read_size` returns `n`. -/
theorem read_size_write_size_in_range (field : tll_scheme_field_t) (data : View) (n m : Nat)
    (hm : intMax field.type = some m) (hn : n ≤ m) (h63 : n ≤ 2 ^ 63 - 1) :
    read_size field (write_size field data n).2 = (n : Int) := by
  obtain ⟨t, s, tp, v⟩ := field
  cases t <;> simp [intMax] at hm <;> subst hm <;>
    simp [read_size, write_size, View.get, View.set, scalar, View.load_store_same, toSigned] <;>
    omega

/-- Witness for C8: scenario S6, a UINT16 field storing 42000 reads back 42000. -/
theorem read_size_write_size_in_range_witness :
    (intMax (scalarField .UInt16).type = some 65535 ∧ 42000 ≤ 65535 ∧ 42000 ≤ 2 ^ 63 - 1) ∧
    read_size (scalarField .UInt16) (write_size (scalarField .UInt16) (zeroView 8) 42000).2
      = 42000 :=
  ⟨by decide,
    read_size_write_size_in_range (scalarField .UInt16) (zeroView 8) 42000 65535 rfl
      (by decide) (by decide)⟩

/-- C8 (as stated) fails for UINT64: `2^63` is at most the largest UINT64 value, but
`read_size` returns `-2^63` after `write_size` stored it. -/
theorem read_size_write_size_uint64_counterexample :
    intMax (scalarField .UInt64).type = some (2 ^ 64 - 1) ∧ 2 ^ 63 ≤ 2 ^ 64 - 1 ∧
    read_size (scalarField .UInt64) (write_size (scalarField .UInt64) (zeroView 8) (2 ^ 63)).2
      = -9223372036854775808 ∧
    read_size (scalarField .UInt64) (write_size (scalarField .UInt64) (zeroView 8) (2 ^ 63)).2
      ≠ ((2 ^ 63 : Nat) : Int) := by
  decide

/-- C9: non-integer fields in the size reader.  For a field of type DOUBLE,
DECIMAL128, BYTES, MESSAGE, ARRAY, POINTER or UNION, `read_size` returns -1 on every
buffer, and `write_size` returns 0 and the view it was given, so no byte changes. -/
theorem read_size_write_size_non_integer (field : tll_scheme_field_t) (data : View) (n : Nat)
    (ht : field.type = .Double ∨ field.type = .Decimal128 ∨ field.type = .Bytes ∨
      field.type = .Message ∨ field.type = .Array ∨ field.type = .Pointer ∨
      field.type = .Union) :
    read_size field data = -1 ∧ write_size field data n = (0, data) ∧
      ∀ i, (write_size field data n).2.buf.bytes i = data.buf.bytes i := by
  rcases ht with h | h | h | h | h | h | h <;> simp [read_size, write_size, h]

/-- Witness for C9: a POINTER field. -/
theorem read_size_write_size_non_integer_witness :
    (scalarField .Pointer).type = .Pointer ∧
    (read_size (scalarField .Pointer) (zeroView 8) = -1 ∧
      write_size (scalarField .Pointer) (zeroView 8) 5 = (0, zeroView 8) ∧
      ∀ i, (write_size (scalarField .Pointer) (zeroView 8) 5).2.buf.bytes i
        = (zeroView 8).buf.bytes i) :=
  ⟨rfl, read_size_write_size_non_integer (scalarField .Pointer) (zeroView 8) 5
    (Or.inr (Or.inr (Or.inr (Or.inr (Or.inr (Or.inl rfl))))))⟩

/-- C10: DEFAULT header wire format.  For a pointer of C `unsigned` members with
size at most `2^24 - 1`, `write_pointer` on a DEFAULT field returns 0 and leaves
byte `i` of the offset (little-endian, 32 bits) in header byte `i` for `i < 4`,
byte `i` of the size (little-endian, 24 bits) in header byte `4 + i` for `i < 3`,
and `min(entity, 255)` in byte 7.  For (0x1000, 10, 1) the header is
`00 10 00 00 0A 00 00 01`, and `read_pointer` on any view beginning with those
bytes returns (0x1000, 10, 1). -/
theorem write_pointer_default_wire_format (field : tll_scheme_field_t) (data : View)
    (ptr : generic_offset_ptr_t)
    (hv : field.offset_ptr_version = TLL_SCHEME_OFFSET_PTR_DEFAULT)
    (hoff : ptr.offset < 2 ^ 32) (hs : ptr.size ≤ 2 ^ 24 - 1) :
    (write_pointer field data ptr).1 = 0 ∧
    (∀ i, i < 4 → (write_pointer field data ptr).2.byte i = ptr.offset / 256 ^ i % 256) ∧
    (∀ i, i < 3 → (write_pointer field data ptr).2.byte (4 + i) = ptr.size / 256 ^ i % 256) ∧
    (write_pointer field data ptr).2.byte 7 = min ptr.entity 255 ∧
    (write_pointer field data ptr).2.load 0 4 = ptr.offset ∧
    (write_pointer field data ptr).2.load 4 3 = ptr.size ∧
    (ptr = ⟨0x1000, 10, 1⟩ →
      (List.range 8).map (write_pointer field data ptr).2.byte
        = [0x00, 0x10, 0x00, 0x00, 0x0A, 0x00, 0x00, 0x01]) ∧
    (∀ v : View, (List.range 8).map v.byte = [0x00, 0x10, 0x00, 0x00, 0x0A, 0x00, 0x00, 0x01] →
      read_pointer field v = some ⟨0x1000, 10, 1⟩) := by
  rw [write_pointer_default field data ptr hv]
  have hb : ∀ i, i < 4 →
      (((data.store 4 3 ptr.size).store 0 4 ptr.offset).store 7 1 (min ptr.entity 0xff)).byte i
        = ptr.offset / 256 ^ i % 256 := by
    intro i hi
    simp only [View.byte, View.store]
    rw [storeLE_outside _ _ _ _ _ (by omega), storeLE_inside _ _ _ _ _ (by omega) (by omega)]
    simp
  have hsz : ∀ i, i < 3 →
      (((data.store 4 3 ptr.size).store 0 4 ptr.offset).store 7 1 (min ptr.entity 0xff)).byte (4 + i)
        = ptr.size / 256 ^ i % 256 := by
    intro i hi
    simp only [View.byte, View.store]
    rw [storeLE_outside _ _ _ _ _ (by omega), storeLE_outside _ _ _ _ _ (by omega),
      storeLE_inside _ _ _ _ _ (by omega) (by omega)]
    have e : data.start + (4 + i) - (data.start + 4) = i := by omega
    simp [e]
  have he : (((data.store 4 3 ptr.size).store 0 4 ptr.offset).store 7 1
      (min ptr.entity 0xff)).byte 7 = min ptr.entity 255 := by
    rw [View.byte_eq_load, View.load_store_same]
    have : min ptr.entity 255 < 256 := by omega
    simp [Nat.mod_eq_of_lt this]
  refine ⟨rfl, hb, hsz, he, ?_, ?_, ?_, ?_⟩
  · simp (disch := omega) [View.load_store_same, View.load_store_disjoint, Nat.mod_eq_of_lt]
  · simp (disch := omega) [View.load_store_same, View.load_store_disjoint, Nat.mod_eq_of_lt]
  · intro hp
    have h0 := hb 0 (by omega)
    have h1 := hb 1 (by omega)
    have h2 := hb 2 (by omega)
    have h3 := hb 3 (by omega)
    have h4 := hsz 0 (by omega)
    have h5 := hsz 1 (by omega)
    have h6 := hsz 2 (by omega)
    subst hp
    simp only [List.range, List.range.loop, List.map]
    simp only [Nat.add_zero] at h4
    rw [h0, h1, h2, h3, h4, h5, h6, he]
    rfl
  · intro v hvb
    simp only [List.range, List.range.loop, List.map, List.cons.injEq, and_true] at hvb
    obtain ⟨b0, b1, b2, b3, b4, b5, b6, b7⟩ := hvb
    simp only [View.byte, Nat.add_zero] at b0 b1 b2 b3 b4 b5 b6 b7
    rw [read_pointer_default field v hv]
    simp only [View.load, loadLE]
    simp [Nat.add_assoc, b0, b1, b2, b3, b4, b5, b6, b7]

/-- Witness for C10: scenario S2 on a 64-byte view. -/
theorem write_pointer_default_wire_format_witness :
    ((0x1000 : Nat) < 2 ^ 32 ∧ (10 : Nat) ≤ 2 ^ 24 - 1) ∧
    (List.range 8).map (write_pointer (pointerField TLL_SCHEME_OFFSET_PTR_DEFAULT 1) (zeroView 64)
      ⟨0x1000, 10, 1⟩).2.byte = [0x00, 0x10, 0x00, 0x00, 0x0A, 0x00, 0x00, 0x01] ∧
    read_pointer (pointerField TLL_SCHEME_OFFSET_PTR_DEFAULT 1)
      (write_pointer (pointerField TLL_SCHEME_OFFSET_PTR_DEFAULT 1) (zeroView 64)
        ⟨0x1000, 10, 1⟩).2 = some ⟨0x1000, 10, 1⟩ :=
  have h := write_pointer_default_wire_format (pointerField TLL_SCHEME_OFFSET_PTR_DEFAULT 1)
    (zeroView 64) ⟨0x1000, 10, 1⟩ rfl (by decide) (by decide)
  ⟨by decide, h.2.2.2.2.2.2.1 rfl, h.2.2.2.2.2.2.2 _ (h.2.2.2.2.2.2.1 rfl)⟩

/-- C11: the code at the failing input.  On a DEFAULT field and a view of 64 bytes,
size `2^16` and entity `2^16` are within the ranges of the version, and
`alloc_pointer` returns 0 with `ptr.offset = 68`; the `unsigned` product
`entity * size` wraps to 0, so the view afterwards is 68 bytes long, shorter than
`ptr.offset + size * entity` in exact arithmetic. -/
theorem alloc_pointer_product_overflow :
    ((65536 : Nat) ≤ 2 ^ 24 - 1 ∧ (65536 : Nat) ≤ 2 ^ 32 - 1) ∧
    (alloc_pointer (pointerField TLL_SCHEME_OFFSET_PTR_DEFAULT 65536) (zeroView 64)
      ⟨0, 65536, 65536⟩).1 = 0 ∧
    (alloc_pointer (pointerField TLL_SCHEME_OFFSET_PTR_DEFAULT 65536) (zeroView 64)
      ⟨0, 65536, 65536⟩).2.2 = { offset := 68, size := 65536, entity := 65536 } ∧
    (alloc_pointer (pointerField TLL_SCHEME_OFFSET_PTR_DEFAULT 65536) (zeroView 64)
      ⟨0, 65536, 65536⟩).2.1.size = 68 ∧
    (alloc_pointer (pointerField TLL_SCHEME_OFFSET_PTR_DEFAULT 65536) (zeroView 64)
      ⟨0, 65536, 65536⟩).2.1.size < 68 + 65536 * 65536 := by
  decide

/-- C12 (amended): the key lookup does not distinguish a missing value from a
missing option.  For a list whose first option named `k` has no value and a list
with no option named `k`, `get` returns absent on both and `has` returns false on
both; on every list, `has` is true exactly when `get` returns a value, that is
when the first option named `k` has one. -/
theorem getter_missing_value_like_missing_option
    (pre rest l : List tll_scheme_option_t) (o : tll_scheme_option_t) (k : String)
    (hpre : ∀ p ∈ pre, p.name ≠ k) (ho : o.name = k) (hval : o.value = none)
    (hl : ∀ p ∈ l, p.name ≠ k) :
    getter_api.get (pre ++ o :: rest) k = none ∧ getter_api.get l k = none ∧
    getter_api.has (pre ++ o :: rest) k = false ∧ getter_api.has l k = false ∧
    (∀ l' : List tll_scheme_option_t, getter_api.has l' k = true ↔
      ∃ o' v, l'.find? (fun p => decide (k = p.name)) = some o' ∧ o'.value = some v) := by
  have h1 : getter_api.get (pre ++ o :: rest) k = none := by
    rw [getter_get_append_of_ne pre _ k hpre, getter_get_cons_of_eq o rest k ho, hval]
  have h2 : getter_api.get l k = none := by
    have := getter_get_append_of_ne l [] k hl
    rw [List.append_nil] at this
    rw [this]; rfl
  refine ⟨h1, h2, by simp [getter_api.has, h1], by simp [getter_api.has, h2], ?_⟩
  intro l'
  rw [getter_api.has, getter_get_eq_find]
  cases hf : l'.find? (fun p => decide (k = p.name)) with
  | none => simp
  | some o' =>
    cases hv : o'.value with
    | none => simp [hv]
    | some v => simp [hv]

/-- Witness for C12: `a` is present without a value in the sample options, `z` is
not present at all. -/
theorem getter_missing_value_like_missing_option_witness :
    getter_api.get ([] ++ { name := "a", value := none } ::
      [{ name := "k", value := some "x" }, { name := "k", value := some "y" }]) "a" = none ∧
    getter_api.get [{ name := "z", value := some "1" }] "a" = none ∧
    getter_api.has ([] ++ { name := "a", value := none } ::
      [{ name := "k", value := some "x" }, { name := "k", value := some "y" }]) "a" = false ∧
    getter_api.has [{ name := "z", value := some "1" }] "a" = false ∧
    (∀ l' : List tll_scheme_option_t, getter_api.has l' "a" = true ↔
      ∃ o' v, l'.find? (fun p => decide ("a" = p.name)) = some o' ∧ o'.value = some v) :=
  getter_missing_value_like_missing_option [] [{ name := "k", value := some "x" },
    { name := "k", value := some "y" }] [{ name := "z", value := some "1" }]
    { name := "a", value := none } "a" (by simp) rfl rfl (by simp)

/-- C12 (as stated) fails: on a list whose only option `k` has no value and on the
empty list, `get` returns the same result (absent) and `has` returns the same
result (false). -/
theorem getter_missing_value_counterexample :
    getter_api.get [{ name := "k", value := none }] "k" = getter_api.get [] "k" ∧
    getter_api.has [{ name := "k", value := none }] "k" = getter_api.has [] "k" ∧
    getter_api.get [{ name := "k", value := none }] "k" = none ∧
    getter_api.has [{ name := "k", value := none }] "k" = false := by
  decide

/-- C13: option lookup is first-match-wins.  `get(list, k)` is the value of the
first option in list order whose name equals `k` (absent when that value is
absent); when the list is `pre ++ o :: rest` with no option named `k` in `pre` and
`o` named `k`, the result is `o.value` whatever follows `o`; and if no option is
named `k` the result is absent. -/
theorem getter_get_first_match (l : List tll_scheme_option_t) (k : String) :
    getter_api.get l k = (l.find? (fun o => decide (k = o.name))).bind (fun o => o.value) ∧
    (∀ pre o rest, l = pre ++ o :: rest → (∀ p ∈ pre, p.name ≠ k) → o.name = k →
      getter_api.get l k = o.value ∧
      ∀ rest', getter_api.get (pre ++ o :: rest') k = getter_api.get l k) ∧
    ((∀ o ∈ l, o.name ≠ k) → getter_api.get l k = none) := by
  refine ⟨getter_get_eq_find l k, ?_, ?_⟩
  · intro pre o rest hl hpre ho
    have h1 : ∀ r, getter_api.get (pre ++ o :: r) k = o.value := fun r => by
      rw [getter_get_append_of_ne pre _ k hpre, getter_get_cons_of_eq o r k ho]
    subst hl
    exact ⟨h1 rest, fun r => by rw [h1 r, h1 rest]⟩
  · intro hl
    have := getter_get_append_of_ne l [] k hl
    rw [List.append_nil] at this
    rw [this]; rfl

/-- Witness for C13: in the sample options the first `k` has value `x`, the second
`y`; the lookup returns `x`, also when the options after the first `k` are dropped. -/
theorem getter_get_first_match_witness :
    getter_api.get sampleOptions "k" = some "x" ∧
    getter_api.get ([{ name := "a", value := none }] ++ { name := "k", value := some "x" } :: [])
      "k" = getter_api.get sampleOptions "k" ∧
    getter_api.get sampleOptions "z" = none :=
  have h := getter_get_first_match sampleOptions "k"
  have hz := getter_get_first_match sampleOptions "z"
  have hk := h.2.1 [{ name := "a", value := none }] { name := "k", value := some "x" }
    [{ name := "k", value := some "y" }] rfl (by simp) rfl
  ⟨hk.1, hk.2 [], hz.2.2 (by simp [sampleOptions])⟩

/-- C14: lookup by numeric id.  For every schema and every integer id, `lookup(id)`
returns the first message in declaration order whose `msgid` equals the id: when
the messages are `pre ++ m :: rest` with no such `msgid` in `pre` and
`m.msgid = id`, it returns `m`; it returns none if and only if no message has that
`msgid`; the `const` overload returns the same message.  Id 0 is looked up like any
other. -/
theorem lookup_by_id (s : tll_scheme_t) (id : Int) :
    s.lookup id = s.messages.find? (fun m => decide (m.msgid = id)) ∧
    (∀ pre m rest, s.messages = pre ++ m :: rest → (∀ p ∈ pre, p.msgid ≠ id) → m.msgid = id →
      s.lookup id = some m) ∧
    (s.lookup id = none ↔ ∀ m ∈ s.messages, m.msgid ≠ id) ∧
    s.lookup_const id = s.lookup id ∧
    (∀ (m : tll_scheme_message_t) (rest : List tll_scheme_message_t),
      tll_scheme_t.lookup { s with messages := { m with msgid := 0 } :: rest } 0
        = some { m with msgid := 0 }) := by
  have hfind : s.lookup id = s.messages.find? (fun m => decide (m.msgid = id)) :=
    lookup_loop_eq_find s.messages id
  refine ⟨hfind, ?_, ?_, lookup_const_loop_eq s.messages id, ?_⟩
  · intro pre m rest hms hpre hm
    rw [hfind, hms]
    exact find_append_of_first _ pre m rest (fun y hy => by simpa using hpre y hy) (by simpa using hm)
  · rw [hfind, find_eq_none_iff_forall]
    simp
  · intro m rest
    simp [tll_scheme_t.lookup, tll_scheme_t.lookup_loop]

/-- Witness for C14: in the sample schema two messages have id 7 and the first
one, which has no name, is returned; id 0 returns `Tick`; id 5 returns none. -/
theorem lookup_by_id_witness :
    sampleScheme.lookup 7 = some { msgid := 7, name := none, size := 4 } ∧
    sampleScheme.lookup 0 = some { msgid := 0, name := some "Tick", size := 6 } ∧
    sampleScheme.lookup 5 = none ∧
    sampleScheme.lookup_const 7 = sampleScheme.lookup 7 :=
  ⟨(lookup_by_id sampleScheme 7).2.1 [] { msgid := 7, name := none, size := 4 }
      [{ msgid := 0, name := some "Tick", size := 6 }, { msgid := 7, name := some "Quote", size := 8 },
        { msgid := 9, name := some "Tick", size := 10 }] rfl (by simp) rfl,
    (lookup_by_id sampleScheme 0).2.1 [{ msgid := 7, name := none, size := 4 }]
      { msgid := 0, name := some "Tick", size := 6 }
      [{ msgid := 7, name := some "Quote", size := 8 }, { msgid := 9, name := some "Tick", size := 10 }]
      rfl (by simp) rfl,
    (lookup_by_id sampleScheme 5).2.2.1.2 (by simp [sampleScheme]),
    (lookup_by_id sampleScheme 7).2.2.2.1⟩

/-- C15: lookup by name.  For every schema and every string `s`, `lookup(s)` returns
the first message in declaration order whose name is present and equal to `s`; it
returns none if and only if no message has that name; a returned message always
has the name `s`, so a message without a name is never returned, not even for the
empty string; the `const` overload returns the same message; and replacing the
`msgid` of every message changes nothing but the `msgid` of the result. -/
theorem lookup_by_name (s : tll_scheme_t) (id : String) (f : tll_scheme_message_t → Int) :
    s.lookup_name id = s.messages.find? (fun m => decide (m.name = some id)) ∧
    (∀ pre m rest, s.messages = pre ++ m :: rest → (∀ p ∈ pre, p.name ≠ some id) →
      m.name = some id → s.lookup_name id = some m) ∧
    (s.lookup_name id = none ↔ ∀ m ∈ s.messages, m.name ≠ some id) ∧
    (∀ m, s.lookup_name id = some m → m.name = some id ∧ m ∈ s.messages) ∧
    (∀ m rest, m.name = none →
      tll_scheme_t.lookup_name { s with messages := m :: rest } id
        = tll_scheme_t.lookup_name { s with messages := rest } id) ∧
    s.lookup_name_const id = s.lookup_name id ∧
    tll_scheme_t.lookup_name
        { s with messages := s.messages.map (fun m => { m with msgid := f m }) } id
      = (s.lookup_name id).map (fun m => { m with msgid := f m }) := by
  have hfind : ∀ t : tll_scheme_t,
      t.lookup_name id = t.messages.find? (fun m => decide (m.name = some id)) :=
    fun t => lookup_name_loop_eq_find t.messages id
  refine ⟨hfind s, ?_, ?_, ?_, ?_, lookup_name_const_loop_eq s.messages id, ?_⟩
  · intro pre m rest hms hpre hm
    rw [hfind, hms]
    exact find_append_of_first _ pre m rest (fun y hy => by simpa using hpre y hy) (by simpa using hm)
  · rw [hfind, find_eq_none_iff_forall]
    simp
  · intro m hm
    rw [hfind] at hm
    have := find_some_holds _ _ _ hm
    exact ⟨by simpa using this.1, this.2⟩
  · intro m rest hm
    simp [tll_scheme_t.lookup_name, tll_scheme_t.lookup_name_loop, hm]
  · rw [hfind, hfind]
    exact find_map_of_comm _ _ _ (fun y => rfl)

/-- Witness for C15: in the sample schema `Tick` names two messages and the first
is returned; the unnamed first message is not returned for the empty string. -/
theorem lookup_by_name_witness :
    sampleScheme.lookup_name "Tick" = some { msgid := 0, name := some "Tick", size := 6 } ∧
    sampleScheme.lookup_name "" = none ∧
    sampleScheme.lookup_name_const "Tick" = sampleScheme.lookup_name "Tick" :=
  ⟨(lookup_by_name sampleScheme "Tick" (fun _ => 0)).2.1 [{ msgid := 7, name := none, size := 4 }]
      { msgid := 0, name := some "Tick", size := 6 }
      [{ msgid := 7, name := some "Quote", size := 8 }, { msgid := 9, name := some "Tick", size := 10 }]
      rfl (by simp) rfl,
    (lookup_by_name sampleScheme "" (fun _ => 0)).2.2.1.2 (by simp [sampleScheme]),
    (lookup_by_name sampleScheme "Tick" (fun _ => 0)).2.2.2.2.2.1⟩

/-- C16: `read_pointer` is absent exactly on an unknown version.  For every field
and view it returns a value when the version of the field is DEFAULT, LEGACY_LONG
or LEGACY_SHORT, and it returns absent if and only if the version is none of the
three. -/
theorem read_pointer_absent_iff (field : tll_scheme_field_t) (data : View) :
    ((read_pointer field data).isSome = true ↔
      (field.offset_ptr_version = TLL_SCHEME_OFFSET_PTR_DEFAULT ∨
        field.offset_ptr_version = TLL_SCHEME_OFFSET_PTR_LEGACY_LONG ∨
        field.offset_ptr_version = TLL_SCHEME_OFFSET_PTR_LEGACY_SHORT)) ∧
    (read_pointer field data = none ↔
      (field.offset_ptr_version ≠ TLL_SCHEME_OFFSET_PTR_DEFAULT ∧
        field.offset_ptr_version ≠ TLL_SCHEME_OFFSET_PTR_LEGACY_LONG ∧
        field.offset_ptr_version ≠ TLL_SCHEME_OFFSET_PTR_LEGACY_SHORT)) := by
  by_cases h0 : field.offset_ptr_version = TLL_SCHEME_OFFSET_PTR_DEFAULT
  · rw [read_pointer_default field data h0]
    split_ifs <;> simp [h0]
  · by_cases h2 : field.offset_ptr_version = TLL_SCHEME_OFFSET_PTR_LEGACY_LONG
    · rw [read_pointer_legacy_long field data h2]
      simp [h2]
    · by_cases h1 : field.offset_ptr_version = TLL_SCHEME_OFFSET_PTR_LEGACY_SHORT
      · rw [read_pointer_legacy_short field data h1]
        simp [h1]
      · simp [read_pointer, h0, h1, h2]

/-- C17 (amended): the LEGACY_SHORT entity is implicit.  For a LEGACY_SHORT pointer
field and every buffer content, `read_pointer` returns offset equal to the 16-bit
little-endian value in header bytes 0..1, size equal to the 16-bit value in bytes
2..3, and entity equal to `field.type_ptr.size` narrowed to the 32-bit `unsigned`
entity, which is `field.type_ptr.size` itself whenever that is below `2^32`; the
value of `ptr.entity` passed to `write_pointer` has no effect on the code, on the
bytes written or on what `read_pointer` later returns. -/
theorem read_pointer_legacy_short_entity_implicit (field : tll_scheme_field_t) (data : View)
    (ptr : generic_offset_ptr_t) (e : Nat)
    (hv : field.offset_ptr_version = TLL_SCHEME_OFFSET_PTR_LEGACY_SHORT) :
    read_pointer field data =
      some { offset := data.byte 0 + 256 * data.byte 1
             size := data.byte 2 + 256 * data.byte 3
             entity := field.type_ptr.size % 2 ^ 32 } ∧
    (field.type_ptr.size < 2 ^ 32 →
      (read_pointer field data).map (fun r => r.entity) = some field.type_ptr.size) ∧
    write_pointer field data { ptr with entity := e } = write_pointer field data ptr ∧
    read_pointer field (write_pointer field data { ptr with entity := e }).2 =
      read_pointer field (write_pointer field data ptr).2 := by
  have hw : write_pointer field data { ptr with entity := e } = write_pointer field data ptr := by
    rw [write_pointer_legacy_short field data _ hv, write_pointer_legacy_short field data _ hv]
  refine ⟨?_, ?_, hw, by rw [hw]⟩
  · rw [read_pointer_legacy_short field data hv]
    simp [View.load, View.byte, loadLE, Nat.add_assoc]
  · intro hlt
    rw [read_pointer_legacy_short field data hv]
    simp only [Option.map_some', Nat.mod_eq_of_lt hlt]

/-- Witness for C17: a LEGACY_SHORT field with 12-byte elements; entities 1 and 99
passed to `write_pointer` give the same result. -/
theorem read_pointer_legacy_short_entity_implicit_witness :
    (pointerField TLL_SCHEME_OFFSET_PTR_LEGACY_SHORT 12).offset_ptr_version
      = TLL_SCHEME_OFFSET_PTR_LEGACY_SHORT ∧
    read_pointer (pointerField TLL_SCHEME_OFFSET_PTR_LEGACY_SHORT 12)
      (write_pointer (pointerField TLL_SCHEME_OFFSET_PTR_LEGACY_SHORT 12) (zeroView 64)
        ⟨0x1234, 3, 1⟩).2 = some { offset := 0x1234, size := 3, entity := 12 } ∧
    (read_pointer (pointerField TLL_SCHEME_OFFSET_PTR_LEGACY_SHORT 12) (zeroView 64) =
      some { offset := (zeroView 64).byte 0 + 256 * (zeroView 64).byte 1
             size := (zeroView 64).byte 2 + 256 * (zeroView 64).byte 3
             entity := (pointerField TLL_SCHEME_OFFSET_PTR_LEGACY_SHORT 12).type_ptr.size % 2 ^ 32 } ∧
    ((pointerField TLL_SCHEME_OFFSET_PTR_LEGACY_SHORT 12).type_ptr.size < 2 ^ 32 →
      (read_pointer (pointerField TLL_SCHEME_OFFSET_PTR_LEGACY_SHORT 12) (zeroView 64)).map
        (fun r => r.entity) = some (pointerField TLL_SCHEME_OFFSET_PTR_LEGACY_SHORT 12).type_ptr.size) ∧
    write_pointer (pointerField TLL_SCHEME_OFFSET_PTR_LEGACY_SHORT 12) (zeroView 64)
        { (⟨0x1234, 3, 1⟩ : generic_offset_ptr_t) with entity := 99 } =
      write_pointer (pointerField TLL_SCHEME_OFFSET_PTR_LEGACY_SHORT 12) (zeroView 64)
        ⟨0x1234, 3, 1⟩ ∧
    read_pointer (pointerField TLL_SCHEME_OFFSET_PTR_LEGACY_SHORT 12)
        (write_pointer (pointerField TLL_SCHEME_OFFSET_PTR_LEGACY_SHORT 12) (zeroView 64)
          { (⟨0x1234, 3, 1⟩ : generic_offset_ptr_t) with entity := 99 }).2 =
      read_pointer (pointerField TLL_SCHEME_OFFSET_PTR_LEGACY_SHORT 12)
        (write_pointer (pointerField TLL_SCHEME_OFFSET_PTR_LEGACY_SHORT 12) (zeroView 64)
          ⟨0x1234, 3, 1⟩).2) :=
  ⟨rfl, by decide,
    read_pointer_legacy_short_entity_implicit (pointerField TLL_SCHEME_OFFSET_PTR_LEGACY_SHORT 12)
      (zeroView 64) ⟨0x1234, 3, 1⟩ 99 rfl⟩

/-- C17 (as stated) fails when the element size does not fit the 32-bit entity: for
a LEGACY_SHORT field whose element descriptor has size `2^32`, `read_pointer`
returns entity 0. -/
theorem read_pointer_legacy_short_wide_element_counterexample :
    (pointerField TLL_SCHEME_OFFSET_PTR_LEGACY_SHORT (2 ^ 32)).type_ptr.size = 2 ^ 32 ∧
    read_pointer (pointerField TLL_SCHEME_OFFSET_PTR_LEGACY_SHORT (2 ^ 32)) (zeroView 64) =
      some { offset := 0, size := 0, entity := 0 } := by
  decide

/-- C18: `write_pointer` touches only the header.  For every version and every
pointer, `write_pointer` (successful or not) leaves the start of the view and the
length of the buffer as they were and changes no byte outside the first
`header_size(version)` bytes of the view (8 for DEFAULT, 8 for LEGACY_LONG, 4 for
LEGACY_SHORT). -/
theorem write_pointer_touches_only_header (field : tll_scheme_field_t) (data : View)
    (ptr : generic_offset_ptr_t) :
    (header_size TLL_SCHEME_OFFSET_PTR_DEFAULT = 8 ∧
      header_size TLL_SCHEME_OFFSET_PTR_LEGACY_LONG = 8 ∧
      header_size TLL_SCHEME_OFFSET_PTR_LEGACY_SHORT = 4) ∧
    (write_pointer field data ptr).2.start = data.start ∧
    (write_pointer field data ptr).2.buf.size = data.buf.size ∧
    (write_pointer field data ptr).2.size = data.size ∧
    ∀ i, (i < data.start ∨ data.start + header_size field.offset_ptr_version ≤ i) →
      (write_pointer field data ptr).2.buf.bytes i = data.buf.bytes i := by
  refine ⟨by decide, write_pointer_start field data ptr, write_pointer_buf_size field data ptr, ?_,
    fun i hi => write_pointer_bytes_outside field data ptr i hi⟩
  simp only [View.size, write_pointer_start, write_pointer_buf_size]

/-- C19 (amended): `alloc_pointer` does nothing to the buffer when it fails.
Whenever it returns a non-zero code, the view it returns is the one it was given
(same length, same bytes, no payload appended), the code is the one
`write_pointer` returned, and the only change is that `ptr.offset` holds the tail
length narrowed to 32 bits, which is the tail length itself when that is below
`2^32`.  The failing cases are LEGACY_LONG with size above `2^16 - 1` and
LEGACY_SHORT with size, or the narrowed tail length, above `2^16 - 1`. -/
theorem alloc_pointer_failure_keeps_buffer (field : tll_scheme_field_t) (data : View)
    (ptr : generic_offset_ptr_t) (h : (alloc_pointer field data ptr).1 ≠ 0) :
    (alloc_pointer field data ptr).2.1 = data ∧
    (alloc_pointer field data ptr).2.1.buf.size = data.buf.size ∧
    (∀ i, (alloc_pointer field data ptr).2.1.buf.bytes i = data.buf.bytes i) ∧
    (alloc_pointer field data ptr).1 =
      (write_pointer field data { ptr with offset := data.size % 2 ^ 32 }).1 ∧
    (alloc_pointer field data ptr).2.2 = { ptr with offset := data.size % 2 ^ 32 } ∧
    (data.size < 2 ^ 32 → (alloc_pointer field data ptr).2.2.offset = data.size) ∧
    ((field.offset_ptr_version = TLL_SCHEME_OFFSET_PTR_LEGACY_LONG ∧ ptr.size > 2 ^ 16 - 1) ∨
      (field.offset_ptr_version = TLL_SCHEME_OFFSET_PTR_LEGACY_SHORT ∧
        (ptr.size > 2 ^ 16 - 1 ∨ data.size % 2 ^ 32 > 2 ^ 16 - 1))) := by
  have hw : (write_pointer field data { ptr with offset := data.size % 2 ^ 32 }).1 ≠ 0 := by
    rw [← alloc_pointer_fst]; exact h
  have hcase := (write_pointer_fst_ne_zero_iff field data _).1 hw
  rw [alloc_pointer_of_fail field data ptr hw, write_pointer_snd_of_ne_zero field data _ hw]
  refine ⟨rfl, rfl, fun _ => rfl, rfl, rfl, ?_, hcase⟩
  intro hlt
  exact Nat.mod_eq_of_lt hlt

/-- Witness for C19: a LEGACY_SHORT field on a view of 70000 bytes. -/
theorem alloc_pointer_failure_keeps_buffer_witness :
    (alloc_pointer (pointerField TLL_SCHEME_OFFSET_PTR_LEGACY_SHORT 4) (zeroView 70000)
      ⟨0, 2, 4⟩).1 ≠ 0 ∧
    ((alloc_pointer (pointerField TLL_SCHEME_OFFSET_PTR_LEGACY_SHORT 4) (zeroView 70000)
        ⟨0, 2, 4⟩).2.1 = zeroView 70000 ∧
      (alloc_pointer (pointerField TLL_SCHEME_OFFSET_PTR_LEGACY_SHORT 4) (zeroView 70000)
        ⟨0, 2, 4⟩).2.1.buf.size = (zeroView 70000).buf.size ∧
      (∀ i, (alloc_pointer (pointerField TLL_SCHEME_OFFSET_PTR_LEGACY_SHORT 4) (zeroView 70000)
        ⟨0, 2, 4⟩).2.1.buf.bytes i = (zeroView 70000).buf.bytes i) ∧
      (alloc_pointer (pointerField TLL_SCHEME_OFFSET_PTR_LEGACY_SHORT 4) (zeroView 70000)
        ⟨0, 2, 4⟩).1 =
        (write_pointer (pointerField TLL_SCHEME_OFFSET_PTR_LEGACY_SHORT 4) (zeroView 70000)
          { (⟨0, 2, 4⟩ : generic_offset_ptr_t) with offset := (zeroView 70000).size % 2 ^ 32 }).1 ∧
      (alloc_pointer (pointerField TLL_SCHEME_OFFSET_PTR_LEGACY_SHORT 4) (zeroView 70000)
        ⟨0, 2, 4⟩).2.2 =
        { (⟨0, 2, 4⟩ : generic_offset_ptr_t) with offset := (zeroView 70000).size % 2 ^ 32 } ∧
      ((zeroView 70000).size < 2 ^ 32 →
        (alloc_pointer (pointerField TLL_SCHEME_OFFSET_PTR_LEGACY_SHORT 4) (zeroView 70000)
          ⟨0, 2, 4⟩).2.2.offset = (zeroView 70000).size) ∧
      (((pointerField TLL_SCHEME_OFFSET_PTR_LEGACY_SHORT 4).offset_ptr_version
            = TLL_SCHEME_OFFSET_PTR_LEGACY_LONG ∧ (2 : Nat) > 2 ^ 16 - 1) ∨
        ((pointerField TLL_SCHEME_OFFSET_PTR_LEGACY_SHORT 4).offset_ptr_version
            = TLL_SCHEME_OFFSET_PTR_LEGACY_SHORT ∧
          ((2 : Nat) > 2 ^ 16 - 1 ∨ (zeroView 70000).size % 2 ^ 32 > 2 ^ 16 - 1)))) :=
  ⟨by decide,
    alloc_pointer_failure_keeps_buffer (pointerField TLL_SCHEME_OFFSET_PTR_LEGACY_SHORT 4)
      (zeroView 70000) ⟨0, 2, 4⟩ (by decide)⟩

/-- C19 (as stated) fails when the tail length does not fit 32 bits.  On a view of
`2^32 + 8` bytes a LEGACY_LONG `alloc_pointer` with size `2^16` fails and leaves 8
in `ptr.offset`, not the tail length; on a view of `2^32` bytes a LEGACY_SHORT
`alloc_pointer` returns 0 although the tail length is above `2^16 - 1`. -/
theorem alloc_pointer_failure_long_view_counterexample :
    (alloc_pointer (pointerField TLL_SCHEME_OFFSET_PTR_LEGACY_LONG 1) (zeroView (2 ^ 32 + 8))
      ⟨0, 2 ^ 16, 1⟩).1 = ERANGE ∧
    (alloc_pointer (pointerField TLL_SCHEME_OFFSET_PTR_LEGACY_LONG 1) (zeroView (2 ^ 32 + 8))
      ⟨0, 2 ^ 16, 1⟩).2.2.offset = 8 ∧
    (zeroView (2 ^ 32 + 8)).size = 2 ^ 32 + 8 ∧
    (zeroView (2 ^ 32)).size > 2 ^ 16 - 1 ∧
    (alloc_pointer (pointerField TLL_SCHEME_OFFSET_PTR_LEGACY_SHORT 1) (zeroView (2 ^ 32))
      ⟨0, 1, 1⟩).1 = 0 := by
  decide

end tll.scheme
